import Mathlib

/-!
MultiSocketType: handshake detection, policy and replay buffer.

A shallow embedding of `src/modules/ripple_asio/sockets/ripple_MultiSocketType.h`.

* A byte (`unsigned char`) is a `Nat`; the code only compares bytes, it does no
  arithmetic on them.
* `boost::system::error_code` is `ErrorCode`; every function of the source that
  takes `ec` by reference assigns it, so the embedding returns it.
* The object's members are the fields of `MultiSocketType`; a member function
  takes the object and returns the updated object.
* What the environment decides (how many bytes have arrived, whether a
  transport call fails, what the TLS engine answers) is an explicit argument.
* `fatal_assert` and a dereference of a null `ScopedPointer` end the call with
  a `Fault` instead of a result.
* An asynchronous function returns, next to the updated object, what it did
  with its completion handler (`HandlerUse`), in order; the completion of the
  peeking `async_receive` is `onDetectRead`, called with the transport's answer.
* The overloads that take the caller's bytes (the buffered handshake) carry
  the suffix `_buffers`.
-/

namespace Ripple

/-- Modelled from the spec: the declaration of `Socket::handshake_type` is not
among the source files; the role is one of client and server (section 3), the
two values the source compares against. -/
inductive handshake_type where
  | client
  | server
  deriving DecidableEq, Repr

/-- Modelled from the spec: the declaration of `Options` is not among the
source files; it holds four booleans (section 3), named here as the source
reads them. -/
structure Options where
  useClientSsl : Bool
  enableServerSsl : Bool
  requireServerSsl : Bool
  requireServerProxy : Bool
  deriving DecidableEq, Repr

/-- A `boost::system::error_code`: the default-constructed value is `success`,
`boost::asio::error::invalid_argument` is what `failedHandshake` assigns, and
`other k` stands for every other code a transport or the TLS engine reports. -/
inductive ErrorCode where
  | success
  | invalid_argument
  | other (k : Nat)
  deriving DecidableEq, Repr

/-- The conversion of an error code to `bool` (`if (ec)`): true when it holds an error. -/
def ErrorCode.failed : ErrorCode → Bool
  | .success => false
  | _ => true

/-- How a call ends without returning. The macro `fatal_assert` is not among
the source files: by its name it ends the program when its condition is false
(and if it did nothing, `stream ()` would go on to dereference the null
pointer). `null_dereference` is the use of a null `ScopedPointer`. -/
inductive Fault where
  | fatal_assert
  | null_dereference
  deriving DecidableEq, Repr

/-- What the transport answers to one receive or read: the error code it
reports and how many of the unread bytes of the peer's stream are there to be
taken at that moment. -/
structure RecvEnv where
  ec : ErrorCode
  arrived : Nat
  deriving DecidableEq, Repr

/-- What the transport answers to one write: the error code it reports and
how many bytes it accepts. -/
structure SendEnv where
  ec : ErrorCode
  accepted : Nat
  deriving DecidableEq, Repr

/-- What the TLS engine answers to one call: its error code, how many bytes of
the transport's stream it consumed, and (for a read) the plaintext it has. -/
structure SslEnv where
  ec : ErrorCode
  consumed : Nat
  plaintext : List Nat
  deriving DecidableEq, Repr

/-- A call that `MultiSocketType` makes on the next layer (the transport). -/
inductive SocketCall where
  | receive_peek (needed : Nat)
  | read_some (size : Nat)
  | write_some (data : List Nat)
  | shutdown_both
  | close
  | cancel
  deriving DecidableEq, Repr

/-- Modelled from the spec: the next layer `StreamSocket` is a template
parameter of the source, the transport of section 6. `rx` holds the bytes the
peer has sent and no read has consumed yet; `calls` records, oldest first, the
calls `MultiSocketType` makes on it. -/
structure StreamSocket where
  rx : List Nat
  is_open : Bool
  calls : List SocketCall
  deriving DecidableEq, Repr

/-- A call made on the TLS stream `*m_ssl_stream`. -/
inductive SslCall where
  | handshake (role : handshake_type)
  | read_some (size : Nat)
  | write_some (data : List Nat)
  | shutdown
  | handshake_buffers (role : handshake_type) (buffers : List Nat)
  | async_handshake (role : handshake_type)
  | async_shutdown
  deriving DecidableEq, Repr

/-- Modelled from the spec: the TLS stream `boost::asio::ssl::stream` over the
next layer, the TLS engine of section 6, with the calls made on it, oldest
first. -/
structure ssl_stream_type where
  calls : List SslCall
  deriving DecidableEq, Repr

/-- Which object the `SocketWrapper` held by `m_stream` wraps. -/
inductive SocketWrapper where
  | next_layer
  | ssl_stream
  deriving DecidableEq, Repr

namespace StreamSocket

/-- The call `receive (buffers, message_peek, ec)` with room for `needed` bytes:
the bytes that have arrived are copied out and stay in the stream. -/
def receive_peek (t : StreamSocket) (needed : Nat) (env : RecvEnv) :
    List Nat × ErrorCode × StreamSocket :=
  let t1 := { t with calls := t.calls ++ [SocketCall.receive_peek needed] }
  if env.ec.failed then ([], env.ec, t1)
  else (t.rx.take (min needed env.arrived), ErrorCode.success, t1)

/-- The call `read_some (buffers, ec)` with room for `size` bytes: the bytes
that have arrived are copied out and removed from the stream. -/
def read_some (t : StreamSocket) (size : Nat) (env : RecvEnv) :
    List Nat × ErrorCode × StreamSocket :=
  let t1 := { t with calls := t.calls ++ [SocketCall.read_some size] }
  if env.ec.failed then ([], env.ec, t1)
  else (t.rx.take (min size env.arrived), ErrorCode.success,
    { t1 with rx := t.rx.drop (min size env.arrived) })

/-- The call `write_some (buffers, ec)`: returns how many bytes were accepted. -/
def write_some (t : StreamSocket) (data : List Nat) (env : SendEnv) :
    Nat × ErrorCode × StreamSocket :=
  let t1 := { t with calls := t.calls ++ [SocketCall.write_some data] }
  if env.ec.failed then (0, env.ec, t1)
  else (min data.length env.accepted, ErrorCode.success, t1)

/-- The call `shutdown (shutdown_both, ec)`. -/
def shutdown_both (t : StreamSocket) (ec : ErrorCode) : ErrorCode × StreamSocket :=
  (ec, { t with calls := t.calls ++ [SocketCall.shutdown_both] })

/-- The call `close (ec)`. -/
def close (t : StreamSocket) (ec : ErrorCode) : ErrorCode × StreamSocket :=
  (ec, { t with is_open := false, calls := t.calls ++ [SocketCall.close] })

/-- The call `cancel (ec)`. -/
def cancel (t : StreamSocket) (ec : ErrorCode) : ErrorCode × StreamSocket :=
  (ec, { t with calls := t.calls ++ [SocketCall.cancel] })

/-- The effect on the transport of one call into the TLS engine: the engine
consumes part of the peer's stream. -/
def engine_io (t : StreamSocket) (env : SslEnv) : StreamSocket :=
  { t with rx := t.rx.drop env.consumed }

end StreamSocket

namespace ssl_stream_type

/-- The call `handshake (role, ec)` on the TLS stream. -/
def handshake (x : ssl_stream_type) (t : StreamSocket) (role : handshake_type) (env : SslEnv) :
    ErrorCode × ssl_stream_type × StreamSocket :=
  (env.ec, { x with calls := x.calls ++ [SslCall.handshake role] }, t.engine_io env)

/-- The call `read_some (buffers, ec)` on the TLS stream. -/
def read_some (x : ssl_stream_type) (t : StreamSocket) (size : Nat) (env : SslEnv) :
    List Nat × ErrorCode × ssl_stream_type × StreamSocket :=
  let x1 := { x with calls := x.calls ++ [SslCall.read_some size] }
  if env.ec.failed then ([], env.ec, x1, t.engine_io env)
  else (env.plaintext.take size, ErrorCode.success, x1, t.engine_io env)

/-- The call `write_some (buffers, ec)` on the TLS stream. -/
def write_some (x : ssl_stream_type) (t : StreamSocket) (data : List Nat) (env : SslEnv) :
    Nat × ErrorCode × ssl_stream_type × StreamSocket :=
  let x1 := { x with calls := x.calls ++ [SslCall.write_some data] }
  if env.ec.failed then (0, env.ec, x1, t.engine_io env)
  else (data.length, ErrorCode.success, x1, t.engine_io env)

/-- The call `shutdown (ec)` on the TLS stream. -/
def shutdown (x : ssl_stream_type) (t : StreamSocket) (env : SslEnv) :
    ErrorCode × ssl_stream_type × StreamSocket :=
  (env.ec, { x with calls := x.calls ++ [SslCall.shutdown] }, t.engine_io env)

/-- The call `handshake (role, buffers, ec)` on the TLS stream: `buffers` are
bytes of the peer already read, given to the engine as its first input. -/
def handshake_buffers (x : ssl_stream_type) (t : StreamSocket) (role : handshake_type)
    (buffers : List Nat) (env : SslEnv) : ErrorCode × ssl_stream_type × StreamSocket :=
  (env.ec, { x with calls := x.calls ++ [SslCall.handshake_buffers role buffers] },
    t.engine_io env)

/-- The call `async_handshake (role, handler)` on the TLS stream: the engine
keeps the handler and calls it when its handshake has ended. -/
def async_handshake (x : ssl_stream_type) (t : StreamSocket) (role : handshake_type)
    (env : SslEnv) : ssl_stream_type × StreamSocket :=
  ({ x with calls := x.calls ++ [SslCall.async_handshake role] }, t.engine_io env)

/-- The call `async_shutdown (handler)` on the TLS stream. -/
def async_shutdown (x : ssl_stream_type) (t : StreamSocket) (env : SslEnv) :
    ssl_stream_type × StreamSocket :=
  ({ x with calls := x.calls ++ [SslCall.async_shutdown] }, t.engine_io env)

end ssl_stream_type

/-- What a function does with the completion handler it was given: post it
through the strand with an error code, or hand it to the TLS stream, which
calls it at the end of the asynchronous operation. -/
inductive HandlerUse where
  | post (ec : ErrorCode)
  | ssl_async_handshake (role : handshake_type)
  | ssl_async_shutdown
  deriving DecidableEq, Repr

/-- The `enum Status` of the source. -/
inductive MultiSocketType.Status where
  | needMore
  | proxy
  | plain
  | ssl
  deriving DecidableEq, Repr

/-- The `enum Action` of the source. -/
inductive MultiSocketType.Action where
  | actionDetect
  | actionPlain
  | actionSsl
  | actionFail
  deriving DecidableEq, Repr

/-- The data members of `MultiSocketType` that the modelled functions use.
`m_stream` and `m_ssl_stream` are `ScopedPointer`s, `none` when null;
`m_buffer` is the readable part of the `streambuf`. -/
structure MultiSocketType where
  m_options : Options
  m_next_layer : StreamSocket
  m_status : MultiSocketType.Status
  m_role : handshake_type
  m_stream : Option SocketWrapper
  m_ssl_stream : Option ssl_stream_type
  m_buffer : List Nat
  deriving DecidableEq, Repr

/-- What `read_some` hands back: the returned count, the bytes copied into the
caller's buffers, and the error code. -/
structure ReadResult where
  amount : Nat
  data : List Nat
  ec : ErrorCode
  deriving DecidableEq, Repr

namespace MultiSocketType

/-- The constructor: `m_status (needMore)`, `m_role (Socket::client)`, null
pointers and an empty buffer. -/
def new (arg : StreamSocket) (options : Options) : MultiSocketType :=
  { m_options := options, m_next_layer := arg, m_status := Status.needMore,
    m_role := handshake_type.client, m_stream := none, m_ssl_stream := none, m_buffer := [] }

/-- The value `autoDetectBytes`. -/
def autoDetectBytes : Nat := 5

/-- The source's `isPrintable`: `(c < 127) && (c > 31)`. -/
def isPrintable (c : Nat) : Bool :=
  decide (c < 127) && decide (c > 31)

/-- The literal `"PROXY"` as bytes. -/
def PROXY : List Nat := [80, 82, 79, 88, 89]

/-- The test `memcmp (a, b, n) != 0`: the first `n` bytes of `a` and `b` differ. -/
def memcmp_ne (a b : List Nat) (n : Nat) : Bool :=
  a.take n != b.take n

/-- The source's `analyzeHandshake`, as the value it leaves in `m_status`.
`data` is the local array of five bytes filled by `buffer_copy`, which copies
at most five bytes and returns how many (`bytes`). -/
def analyzeHandshake (buffers : List Nat) : Status :=
  let data := buffers.take 5
  let bytes := data.length
  if bytes > 0 then
    if isPrintable (data.getD 0 0) &&
        (decide (bytes < 2) || isPrintable (data.getD 1 0)) &&
        (decide (bytes < 3) || isPrintable (data.getD 2 0)) &&
        (decide (bytes < 4) || isPrintable (data.getD 3 0)) &&
        (decide (bytes < 5) || isPrintable (data.getD 4 0)) then
      if decide (bytes < 5) || memcmp_ne data PROXY 5 then
        Status.plain
      else
        Status.proxy
    else
      Status.ssl
  else
    Status.needMore

/-- The classifier as the specification words it (section 4.1): the four steps in order. -/
def classifySpec (b : List Nat) : Status :=
  if b.length = 0 then Status.needMore
  else if (b.take (min b.length 5)).any (fun c => !(decide (31 < c) && decide (c < 127))) then
    Status.ssl
  else if decide (b.length ≥ 5) && decide (b.take 5 = PROXY) then Status.proxy
  else Status.plain

/-- The source's `stream ()`: `fatal_assert (m_stream != nullptr)`, then the wrapper. -/
def stream (s : MultiSocketType) : Except Fault SocketWrapper :=
  match s.m_stream with
  | none => Except.error Fault.fatal_assert
  | some w => Except.ok w

/-- The source's `close (ec)`: closes the lowest layer. -/
def close (s : MultiSocketType) (ec : ErrorCode) : ErrorCode × MultiSocketType :=
  let r := s.m_next_layer.close ec
  (r.1, { s with m_next_layer := r.2 })

/-- The source's `cancel (ec)`: cancels on the lowest layer. -/
def cancel (s : MultiSocketType) (ec : ErrorCode) : ErrorCode × MultiSocketType :=
  let r := s.m_next_layer.cancel ec
  (r.1, { s with m_next_layer := r.2 })

/-- The source's `read_some (buffers, ec)`, for caller buffers of `size` bytes
in total. `buffer_copy` copies as many bytes as fit and returns that count. -/
def read_some (s : MultiSocketType) (size : Nat) (env : RecvEnv) (tls : SslEnv) :
    Except Fault (ReadResult × MultiSocketType) :=
  if s.m_buffer.length > 0 then
    let amount := min size s.m_buffer.length
    Except.ok ({ amount := amount, data := s.m_buffer.take amount, ec := ErrorCode.success },
      { s with m_buffer := s.m_buffer.drop amount })
  else
    match s.stream with
    | Except.error f => Except.error f
    | Except.ok SocketWrapper.next_layer =>
      let r := s.m_next_layer.read_some size env
      Except.ok ({ amount := r.1.length, data := r.1, ec := r.2.1 },
        { s with m_next_layer := r.2.2 })
    | Except.ok SocketWrapper.ssl_stream =>
      match s.m_ssl_stream with
      | none => Except.error Fault.null_dereference
      | some x =>
        let r := x.read_some s.m_next_layer size tls
        Except.ok ({ amount := r.1.length, data := r.1, ec := r.2.1 },
          { s with m_ssl_stream := some r.2.2.1, m_next_layer := r.2.2.2 })

/-- The source's `write_some (buffers, ec)`: always through `stream ()`. -/
def write_some (s : MultiSocketType) (data : List Nat) (env : SendEnv) (tls : SslEnv) :
    Except Fault ((Nat × ErrorCode) × MultiSocketType) :=
  match s.stream with
  | Except.error f => Except.error f
  | Except.ok SocketWrapper.next_layer =>
    let r := s.m_next_layer.write_some data env
    Except.ok ((r.1, r.2.1), { s with m_next_layer := r.2.2 })
  | Except.ok SocketWrapper.ssl_stream =>
    match s.m_ssl_stream with
    | none => Except.error Fault.null_dereference
    | some x =>
      let r := x.write_some s.m_next_layer data tls
      Except.ok ((r.1, r.2.1), { s with m_ssl_stream := some r.2.2.1, m_next_layer := r.2.2.2 })

/-- The source's `calcAction (role)`: records the role and picks the action. -/
def calcAction (s : MultiSocketType) (role : handshake_type) : Action × MultiSocketType :=
  let s1 := { s with m_role := role }
  if role = handshake_type.server then
    if !s1.m_options.enableServerSsl &&
        !s1.m_options.requireServerSsl &&
        !s1.m_options.requireServerProxy then
      (Action.actionPlain, s1)
    else if s1.m_options.requireServerSsl && !s1.m_options.requireServerProxy then
      (Action.actionSsl, s1)
    else
      (Action.actionDetect, s1)
  else if s1.m_role = handshake_type.client then
    if s1.m_options.useClientSsl then
      (Action.actionSsl, s1)
    else
      (Action.actionPlain, s1)
  else
    (Action.actionPlain, s1)

/-- The source's `failedHandshake (ec)`: the code it assigns to `ec`. -/
def failedHandshake : ErrorCode := ErrorCode.invalid_argument

/-- The source's `calcDetectAction (ec)`: the action and the value left in `ec`. -/
def calcDetectAction (s : MultiSocketType) : Action × ErrorCode :=
  if s.m_status = Status.plain then
    if !s.m_options.requireServerProxy && !s.m_options.requireServerSsl then
      (Action.actionPlain, ErrorCode.success)
    else
      (Action.actionFail, failedHandshake)
  else if s.m_status = Status.ssl then
    if !s.m_options.requireServerProxy then
      if s.m_options.enableServerSsl || s.m_options.requireServerSsl then
        (Action.actionSsl, ErrorCode.success)
      else
        (Action.actionFail, failedHandshake)
    else
      (Action.actionFail, failedHandshake)
  else if s.m_status = Status.proxy then
    if s.m_options.requireServerProxy then
      (Action.actionFail, failedHandshake)
    else
      (Action.actionFail, failedHandshake)
  else
    (Action.actionFail, failedHandshake)

/-- The pre-peek table of the specification (section 4.2), row by row. -/
def prePeekSpec : handshake_type → Options → Action
  | handshake_type.client, ⟨true, _, _, _⟩ => Action.actionSsl
  | handshake_type.client, ⟨false, _, _, _⟩ => Action.actionPlain
  | handshake_type.server, ⟨_, false, false, false⟩ => Action.actionPlain
  | handshake_type.server, ⟨_, _, true, false⟩ => Action.actionSsl
  | handshake_type.server, _ => Action.actionDetect

/-- The post-peek table of the specification (section 4.2), row by row. -/
def postPeekSpec : Status → Options → Action
  | Status.plain, o =>
    if !o.requireServerSsl && !o.requireServerProxy then Action.actionPlain else Action.actionFail
  | Status.ssl, o =>
    if !o.requireServerProxy && (o.enableServerSsl || o.requireServerSsl) then Action.actionSsl
    else Action.actionFail
  | Status.proxy, _ => Action.actionFail
  | Status.needMore, _ => Action.actionFail

/-- The source's `createPlainStreamSocket`. -/
def createPlainStreamSocket (s : MultiSocketType) : MultiSocketType :=
  { s with m_status := Status.plain, m_stream := some SocketWrapper.next_layer }

/-- The source's `handshakePlain (ec)`. -/
def handshakePlain (s : MultiSocketType) : ErrorCode × MultiSocketType :=
  (ErrorCode.success, s.createPlainStreamSocket)

/-- The source's `createSslStreamSocket`: a new TLS stream over the next layer
and a new wrapper around it. -/
def createSslStreamSocket (s : MultiSocketType) : MultiSocketType :=
  { s with m_status := Status.ssl, m_ssl_stream := some { calls := [] },
           m_stream := some SocketWrapper.ssl_stream }

/-- The source's `handshakeSsl (ec)`: creates the TLS stream, then lets the
engine shake hands in the recorded role on that new stream, on which no call
was made yet; `ec` is the engine's answer. -/
def handshakeSsl (s : MultiSocketType) (tls : SslEnv) : ErrorCode × MultiSocketType :=
  let s1 := s.createSslStreamSocket
  let r := ssl_stream_type.handshake { calls := [] } s1.m_next_layer s1.m_role tls
  (r.1, { s1 with m_ssl_stream := some r.2.1, m_next_layer := r.2.2 })

/-- The source's `detectHandshake (ec)`. The `bassert` on the buffer is a
debug-build check and does nothing here. `prepare`, the peeking `receive` and
`commit (amount)` append the peeked bytes to the buffer; `consume (amount)`
removes `amount` bytes from its front. -/
def detectHandshake (s : MultiSocketType) (env : RecvEnv) : ErrorCode × MultiSocketType :=
  let needed := autoDetectBytes
  let r := s.m_next_layer.receive_peek needed env
  let amount := r.1.length
  let ec := r.2.1
  let s1 := { s with m_next_layer := r.2.2, m_buffer := s.m_buffer ++ r.1 }
  if !ec.failed then
    let s2 := { s1 with m_status := analyzeHandshake s1.m_buffer }
    let s3 := { s2 with m_buffer := s2.m_buffer.drop amount }
    if s3.m_status = Status.needMore then
      (ErrorCode.invalid_argument, s3)
    else
      (ec, s3)
  else
    (ec, s1)

/-- The source's synchronous `handshake (role, ec)`. In both `switch`
statements `default:` stands with `case actionPlain:`. -/
def handshake (s : MultiSocketType) (role : handshake_type) (peek : RecvEnv) (tls : SslEnv) :
    ErrorCode × MultiSocketType :=
  let a := s.calcAction role
  match a.1 with
  | Action.actionSsl => a.2.handshakeSsl tls
  | Action.actionDetect =>
    let d := a.2.detectHandshake peek
    if !d.1.failed then
      match (d.2.calcDetectAction).1 with
      | Action.actionSsl => d.2.handshakeSsl tls
      | _ => d.2.handshakePlain
    else
      d
  | _ => a.2.handshakePlain

/-- The source's `shutdown (ec)`: through the TLS stream when `m_status` is
`ssl`, else a shutdown of both directions on the next layer. -/
def shutdown (s : MultiSocketType) (ec : ErrorCode) (tls : SslEnv) :
    Except Fault (ErrorCode × MultiSocketType) :=
  if s.m_status = Status.ssl then
    match s.m_ssl_stream with
    | none => Except.error Fault.null_dereference
    | some x =>
      let r := x.shutdown s.m_next_layer tls
      Except.ok (r.1, { s with m_ssl_stream := some r.2.1, m_next_layer := r.2.2 })
  else
    let r := s.m_next_layer.shutdown_both ec
    Except.ok (r.1, { s with m_next_layer := r.2 })

/-- The source's `async_shutdown (handler)`: the same test of `m_status` as in
`shutdown`; on the transport side the handler is posted with the code of the
shutdown. -/
def async_shutdown (s : MultiSocketType) (ec : ErrorCode) (tls : SslEnv) :
    Except Fault (List HandlerUse × MultiSocketType) :=
  if s.m_status = Status.ssl then
    match s.m_ssl_stream with
    | none => Except.error Fault.null_dereference
    | some x =>
      let r := x.async_shutdown s.m_next_layer tls
      Except.ok ([HandlerUse.ssl_async_shutdown],
        { s with m_ssl_stream := some r.1, m_next_layer := r.2 })
  else
    let r := s.m_next_layer.shutdown_both ec
    Except.ok ([HandlerUse.post r.1], { s with m_next_layer := r.2 })

/-- The source's `handshakePlain (buffers, ec)` of the buffered handshake:
`fatal_assert (buffer_size (buffers) == 0)` comes first. -/
def handshakePlain_buffers (s : MultiSocketType) (buffers : List Nat) :
    Except Fault (ErrorCode × MultiSocketType) :=
  if buffers.length = 0 then
    Except.ok (ErrorCode.success, s.createPlainStreamSocket)
  else
    Except.error Fault.fatal_assert

/-- The source's `handshakeSsl (buffers, ec)` of the buffered handshake. -/
def handshakeSsl_buffers (s : MultiSocketType) (buffers : List Nat) (tls : SslEnv) :
    ErrorCode × MultiSocketType :=
  let s1 := s.createSslStreamSocket
  let r := ssl_stream_type.handshake_buffers { calls := [] } s1.m_next_layer s1.m_role buffers tls
  (r.1, { s1 with m_ssl_stream := some r.2.1, m_next_layer := r.2.2 })

/-- The source's `detectHandshake (buffers, ec)` of the buffered handshake:
the caller's bytes are copied to the end of `m_buffer` and committed, then
`detectHandshake (ec)` runs. -/
def detectHandshake_buffers (s : MultiSocketType) (buffers : List Nat) (env : RecvEnv) :
    ErrorCode × MultiSocketType :=
  detectHandshake { s with m_buffer := s.m_buffer ++ buffers } env

/-- The source's buffered `handshake (type, buffers, ec)`. In both `switch`
statements `default:` stands with `case actionPlain:`. -/
def handshake_buffers (s : MultiSocketType) (type : handshake_type) (buffers : List Nat)
    (peek : RecvEnv) (tls : SslEnv) : Except Fault (ErrorCode × MultiSocketType) :=
  let a := s.calcAction type
  match a.1 with
  | Action.actionSsl => Except.ok (a.2.handshakeSsl_buffers buffers tls)
  | Action.actionDetect =>
    let d := a.2.detectHandshake_buffers buffers peek
    if !d.1.failed then
      match (d.2.calcDetectAction).1 with
      | Action.actionSsl => Except.ok (d.2.handshakeSsl_buffers buffers tls)
      | _ => d.2.handshakePlain_buffers buffers
    else
      Except.ok d
  | _ => a.2.handshakePlain_buffers buffers

/-- The source's `handshakePlainAsync (handler)`: the plain stream is created
and the handler is posted with success. -/
def handshakePlainAsync (s : MultiSocketType) : List HandlerUse × MultiSocketType :=
  ([HandlerUse.post ErrorCode.success], s.createPlainStreamSocket)

/-- The source's `handshakeSslAsync (handler)`: the TLS stream is created and
the handler goes to its `async_handshake`. -/
def handshakeSslAsync (s : MultiSocketType) (tls : SslEnv) : List HandlerUse × MultiSocketType :=
  let s1 := s.createSslStreamSocket
  let r := ssl_stream_type.async_handshake { calls := [] } s1.m_next_layer s1.m_role tls
  ([HandlerUse.ssl_async_handshake s1.m_role],
    { s1 with m_ssl_stream := some r.1, m_next_layer := r.2 })

/-- The source's `onDetectRead (handler, ec, bytes_transferred)`, the
completion of the peeking `async_receive`; `data` are the bytes that receive
wrote into the prepared region, so `bytes_transferred` is `data.length`.
Returned is what was done with the handler, in order. Inside `if (! ec)` the
source declares a second `ec`, here `ec2`. -/
def onDetectRead (s : MultiSocketType) (ec : ErrorCode) (data : List Nat) (tls : SslEnv) :
    List HandlerUse × MultiSocketType :=
  let bytes_transferred := data.length
  let s1 := { s with m_buffer := s.m_buffer ++ data }
  if !ec.failed then
    let s2 := { s1 with m_status := analyzeHandshake s1.m_buffer }
    let r : ErrorCode × List HandlerUse × MultiSocketType :=
      if s2.m_status ≠ Status.needMore then
        let s3 := { s2 with m_buffer := s2.m_buffer.drop bytes_transferred }
        let a := s3.calcDetectAction
        if !a.2.failed then
          match a.1 with
          | Action.actionSsl => (a.2, s3.handshakeSslAsync tls)
          | _ => (a.2, s3.handshakePlainAsync)
        else
          (a.2, [], s3)
      else
        (ErrorCode.invalid_argument, [], s2)
    let ec2 := r.1
    if ec2.failed then
      (r.2.1 ++ [HandlerUse.post ec2], r.2.2)
    else
      (r.2.1, r.2.2)
  else
    ([], s1)

/-- The source's `detectHandshakeAsync (handler)` together with the completion
of its `async_receive`: the transport peeks for `autoDetectBytes` bytes and
then calls `onDetectRead` with its error code and the bytes it wrote. The
`bassert` on the buffer is a debug-build check and does nothing here. -/
def detectHandshakeAsync (s : MultiSocketType) (peek : RecvEnv) (tls : SslEnv) :
    List HandlerUse × MultiSocketType :=
  let r := s.m_next_layer.receive_peek autoDetectBytes peek
  onDetectRead { s with m_next_layer := r.2.2 } r.2.1 r.1 tls

/-- The source's `async_handshake (type, handler)`. -/
def async_handshake (s : MultiSocketType) (type : handshake_type) (peek : RecvEnv)
    (tls : SslEnv) : List HandlerUse × MultiSocketType :=
  let a := s.calcAction type
  match a.1 with
  | Action.actionSsl => a.2.handshakeSslAsync tls
  | Action.actionDetect => a.2.detectHandshakeAsync peek tls
  | _ => a.2.handshakePlainAsync

/-- A caller calling `handshake` a second time after a first call. -/
def handshake_twice (s : MultiSocketType) (role1 : handshake_type) (peek1 : RecvEnv)
    (tls1 : SslEnv) (role2 : handshake_type) (peek2 : RecvEnv) (tls2 : SslEnv) :
    ErrorCode × MultiSocketType :=
  (s.handshake role1 peek1 tls1).2.handshake role2 peek2 tls2

/-- The classification the detection step arrives at: `analyzeHandshake` of
the bytes the peek returns. -/
def detect_classification (s : MultiSocketType) (peek : RecvEnv) : Status :=
  analyzeHandshake (s.m_next_layer.receive_peek autoDetectBytes peek).1

/-- The post-peek decision for that classification: the action of
`calcDetectAction` with `m_status` set to it. -/
def detect_decision (s : MultiSocketType) (peek : RecvEnv) : Action :=
  (calcDetectAction { s with m_status := s.detect_classification peek }).1

/-- The codes with which a completion handler is called, one for each use made
of it: a posted handler is called with the posted code, a handler handed to
the TLS stream is called with the code the engine reports for that operation. -/
def handler_codes : List HandlerUse → SslEnv → List ErrorCode
  | [], _ => []
  | HandlerUse.post ec :: rest, tls => ec :: handler_codes rest tls
  | HandlerUse.ssl_async_handshake _ :: rest, tls => tls.ec :: handler_codes rest tls
  | HandlerUse.ssl_async_shutdown :: rest, tls => tls.ec :: handler_codes rest tls

/-- One call made by the user of a `MultiSocketType`, with what the environment
answers to it. -/
inductive Step where
  | handshake (role : handshake_type) (peek : RecvEnv) (tls : SslEnv)
  | async_handshake (role : handshake_type) (peek : RecvEnv) (tls : SslEnv)
  | read_some (size : Nat) (env : RecvEnv) (tls : SslEnv)
  | write_some (data : List Nat) (env : SendEnv) (tls : SslEnv)
  | shutdown (ec : ErrorCode) (tls : SslEnv)
  | async_shutdown (ec : ErrorCode) (tls : SslEnv)
  deriving DecidableEq, Repr

/-- Whether a step is an `async_handshake`. -/
def Step.is_async_handshake : Step → Bool
  | Step.async_handshake _ _ _ => true
  | _ => false

/-- The object after one step, or the fault at which the step ends. An
`async_handshake` step stands for the call together with the completion of
its peek. -/
def step (s : MultiSocketType) : Step → Except Fault MultiSocketType
  | Step.handshake role peek tls => Except.ok (s.handshake role peek tls).2
  | Step.async_handshake role peek tls => Except.ok (s.async_handshake role peek tls).2
  | Step.read_some size env tls => (s.read_some size env tls).map (fun r => r.2)
  | Step.write_some data env tls => (s.write_some data env tls).map (fun r => r.2)
  | Step.shutdown ec tls => (s.shutdown ec tls).map (fun r => r.2)
  | Step.async_shutdown ec tls => (s.async_shutdown ec tls).map (fun r => r.2)

/-- The object after a sequence of steps, or the first fault met. -/
def run (s : MultiSocketType) : List Step → Except Fault MultiSocketType
  | [] => Except.ok s
  | st :: rest =>
    match s.step st with
    | Except.error f => Except.error f
    | Except.ok s1 => run s1 rest

/-- The relation between `m_status` and `m_ssl_stream` that the TLS branch of
`shutdown` relies on: when `m_status` is `ssl` the TLS stream exists. -/
def ssl_status_has_session (s : MultiSocketType) : Bool :=
  s.m_status != Status.ssl || s.m_ssl_stream.isSome

/-- That relation at the end of a run: it holds of the final object, and a run
that ends in a fault did not end by dereferencing a null pointer. -/
def session_safe : Except Fault MultiSocketType → Bool
  | Except.ok s => s.ssl_status_has_session
  | Except.error f => f != Fault.null_dereference

/-- A caller calling `shutdown` twice in a row; the two returned codes and the
final object. -/
def shutdown_twice (s : MultiSocketType) (ec1 : ErrorCode) (tls1 : SslEnv) (ec2 : ErrorCode)
    (tls2 : SslEnv) : Except Fault (ErrorCode × ErrorCode × MultiSocketType) :=
  match s.shutdown ec1 tls1 with
  | Except.error f => Except.error f
  | Except.ok (r1, s1) =>
    match s1.shutdown ec2 tls2 with
    | Except.error f => Except.error f
    | Except.ok (r2, s2) => Except.ok (r1, r2, s2)

/-- A caller making successive `read_some` calls, one per entry (buffer size
and what the environment answers), and collecting the bytes returned. -/
def successive_reads (s : MultiSocketType) :
    List (Nat × RecvEnv × SslEnv) → Except Fault (List Nat × MultiSocketType)
  | [] => Except.ok ([], s)
  | (size, env, tls) :: rest =>
    match s.read_some size env tls with
    | Except.error f => Except.error f
    | Except.ok (r, s1) =>
      match successive_reads s1 rest with
      | Except.error f => Except.error f
      | Except.ok (out, s2) => Except.ok (r.data ++ out, s2)

/-- How many bytes the transport can hand over in the reads of a schedule:
per read, what fits in the buffer of what has arrived; nothing on an error. -/
def read_capacity : List (Nat × RecvEnv × SslEnv) → Nat
  | [] => 0
  | (size, env, _) :: rest =>
    (if env.ec.failed then 0 else min size env.arrived) + read_capacity rest

/-- The bytes of `"GET / HTTP/1.1\r\n"` (scenario a of the specification). -/
def GET_request : List Nat :=
  [71, 69, 84, 32, 47, 32, 72, 84, 84, 80, 47, 49, 46, 49, 13, 10]

/-- An open transport on which the peer has sent `bytes` and nothing was called yet. -/
def fresh_transport (bytes : List Nat) : StreamSocket :=
  { rx := bytes, is_open := true, calls := [] }

/-- The options value with every flag false. -/
def no_options : Options :=
  { useClientSsl := false, enableServerSsl := false, requireServerSsl := false,
    requireServerProxy := false }

/-- A receive on which the transport reports no error and `n` bytes have arrived. -/
def arrived (n : Nat) : RecvEnv := { ec := ErrorCode.success, arrived := n }

/-- A TLS engine call that reports `ec`, consumes nothing and has no plaintext. -/
def engine_says (ec : ErrorCode) : SslEnv := { ec := ec, consumed := 0, plaintext := [] }

/-- Options with only `requireServerSsl` set (scenario c). -/
def require_tls_only : Options :=
  { useClientSsl := false, enableServerSsl := false, requireServerSsl := true,
    requireServerProxy := false }

/-- Options with only `enableServerSsl` set. -/
def enable_tls_only : Options :=
  { useClientSsl := false, enableServerSsl := true, requireServerSsl := false,
    requireServerProxy := false }

/-- Options with only `useClientSsl` set. -/
def client_tls_only : Options :=
  { useClientSsl := true, enableServerSsl := false, requireServerSsl := false,
    requireServerProxy := false }

/-- Options with only `requireServerProxy` set. -/
def require_proxy_only : Options :=
  { useClientSsl := false, enableServerSsl := false, requireServerSsl := false,
    requireServerProxy := true }

/-- The first bytes of a TLS ClientHello (scenario b): 0x16 0x03 0x01 0x00 0xA5. -/
def ClientHello : List Nat := [22, 3, 1, 0, 165]

/-- Options with `requireServerSsl` and `requireServerProxy` set. -/
def require_tls_and_proxy : Options :=
  { useClientSsl := false, enableServerSsl := false, requireServerSsl := true,
    requireServerProxy := true }

end MultiSocketType

end Ripple

namespace Ripple.MultiSocketType

/-- C1. For every byte sequence the value `analyzeHandshake` leaves in
`m_status` is the one the four-step reference classifier gives, and it depends
only on the first five bytes. -/
theorem analyzeHandshake_eq_classifySpec (b : List Nat) :
    analyzeHandshake b = classifySpec b ∧
      analyzeHandshake b = analyzeHandshake (b.take 5) := by
  refine ⟨?_, by simp [analyzeHandshake, List.take_take]⟩
  rcases b with _ | ⟨a0, _ | ⟨a1, _ | ⟨a2, _ | ⟨a3, _ | ⟨a4, t⟩⟩⟩⟩⟩
  · decide
  · simp [analyzeHandshake, classifySpec, isPrintable, memcmp_ne, PROXY]
    split_ifs <;> first | rfl | omega
  · simp [analyzeHandshake, classifySpec, isPrintable, memcmp_ne, PROXY]
    split_ifs <;> first | rfl | omega
  · simp [analyzeHandshake, classifySpec, isPrintable, memcmp_ne, PROXY]
    split_ifs <;> first | rfl | omega
  · simp [analyzeHandshake, classifySpec, isPrintable, memcmp_ne, PROXY]
    split_ifs <;> first | rfl | omega
  · simp [analyzeHandshake, classifySpec, isPrintable, memcmp_ne, PROXY]
    split_ifs <;> first | rfl | omega

/-- C2. For every role and every options value the action `calcAction` returns
is the one in the pre-peek table, and the only member it changes is `m_role`. -/
theorem calcAction_eq_prePeekSpec (s : MultiSocketType) (role : handshake_type) :
    (s.calcAction role).1 = prePeekSpec role s.m_options ∧
      (s.calcAction role).2 = { s with m_role := role } := by
  obtain ⟨⟨c, e, r, p⟩, t, st, ro, ms, mss, b⟩ := s
  cases role <;> cases c <;> cases e <;> cases r <;> cases p <;> exact ⟨rfl, rfl⟩

/-- C3. For every classification in `m_status` and every options value the
action `calcDetectAction` returns is the one in the post-peek table, and the
error code it leaves is an error exactly when that action is `actionFail`. -/
theorem calcDetectAction_eq_postPeekSpec (s : MultiSocketType) :
    (s.calcDetectAction).1 = postPeekSpec s.m_status s.m_options ∧
      ((s.calcDetectAction).2 ≠ ErrorCode.success ↔ (s.calcDetectAction).1 = Action.actionFail) ∧
      (s.calcDetectAction).2 =
        (if (s.calcDetectAction).1 = Action.actionFail then ErrorCode.invalid_argument
         else ErrorCode.success) := by
  obtain ⟨⟨c, e, r, p⟩, t, st, ro, ms, mss, b⟩ := s
  cases st <;> cases e <;> cases r <;> cases p <;> simp [calcDetectAction, postPeekSpec, failedHandshake]


theorem calcAction_snd (s : MultiSocketType) (role : handshake_type) :
    (s.calcAction role).2 = { s with m_role := role } := by
  unfold calcAction
  simp only []
  split_ifs <;> rfl

theorem detectHandshake_buffer (s : MultiSocketType) (env : RecvEnv) (hb : s.m_buffer = []) :
    (s.detectHandshake env).2.m_buffer = [] := by
  unfold detectHandshake StreamSocket.receive_peek
  simp only [hb]
  split_ifs <;> simp_all [ErrorCode.failed]

theorem detectHandshake_frame (s : MultiSocketType) (env : RecvEnv) :
    (s.detectHandshake env).2.m_next_layer.rx = s.m_next_layer.rx ∧
      (s.detectHandshake env).2.m_next_layer.is_open = s.m_next_layer.is_open ∧
      (s.detectHandshake env).2.m_next_layer.calls =
        s.m_next_layer.calls ++ [SocketCall.receive_peek 5] ∧
      (s.detectHandshake env).2.m_stream = s.m_stream ∧
      (s.detectHandshake env).2.m_ssl_stream = s.m_ssl_stream ∧
      (s.detectHandshake env).2.m_options = s.m_options ∧
      (s.detectHandshake env).2.m_role = s.m_role := by
  unfold detectHandshake StreamSocket.receive_peek
  simp only []
  split_ifs <;> simp [autoDetectBytes]

theorem handshake_buffer_empty (s : MultiSocketType) (role : handshake_type) (peek : RecvEnv)
    (tls : SslEnv) (hb : s.m_buffer = []) : (s.handshake role peek tls).2.m_buffer = [] := by
  have hd : ({ s with m_role := role } : MultiSocketType).m_buffer = [] := hb
  have h1 := detectHandshake_buffer { s with m_role := role } peek hd
  unfold handshake
  simp only [calcAction_snd]
  split
  · simpa [handshakeSsl, createSslStreamSocket] using hb
  · split_ifs
    · split
      · simpa [handshakeSsl, createSslStreamSocket] using h1
      · simpa [handshakePlain, createPlainStreamSocket] using h1
    · exact h1
  · simpa [handshakePlain, createPlainStreamSocket] using hb

theorem handshake_plain_rx (s : MultiSocketType) (role : handshake_type) (peek : RecvEnv)
    (tls : SslEnv) (hn : s.m_stream = none)
    (hp : (s.handshake role peek tls).2.m_stream = some SocketWrapper.next_layer) :
    (s.handshake role peek tls).2.m_next_layer.rx = s.m_next_layer.rx ∧
      (s.handshake role peek tls).1 = ErrorCode.success := by
  have h1 := detectHandshake_frame { s with m_role := role } peek
  revert hp
  unfold handshake
  simp only [calcAction_snd]
  split
  · simp [handshakeSsl, createSslStreamSocket]
  · split_ifs
    · split
      · simp [handshakeSsl, createSslStreamSocket]
      · intro _
        simpa [handshakePlain, createPlainStreamSocket] using h1.1
    · intro h
      rw [h1.2.2.2.1] at h
      simp [hn] at h
  · intro _
    simp [handshakePlain, createPlainStreamSocket]

theorem successive_reads_next_layer (rs : List (Nat × RecvEnv × SslEnv)) :
    ∀ s : MultiSocketType, s.m_buffer = [] → s.m_stream = some SocketWrapper.next_layer →
      ∃ out s1, s.successive_reads rs = Except.ok (out, s1) ∧
        out = s.m_next_layer.rx.take (read_capacity rs) ∧
        s1.m_next_layer.rx = s.m_next_layer.rx.drop (read_capacity rs) := by
  induction rs with
  | nil =>
    intro s _ _
    exact ⟨[], s, rfl, by simp [read_capacity], by simp [read_capacity]⟩
  | cons r rs ih =>
    intro s hb hs
    obtain ⟨size, env, tls⟩ := r
    have hread : s.read_some size env tls =
        Except.ok ({ amount := (s.m_next_layer.read_some size env).1.length,
                     data := (s.m_next_layer.read_some size env).1,
                     ec := (s.m_next_layer.read_some size env).2.1 },
          { s with m_next_layer := (s.m_next_layer.read_some size env).2.2 }) := by
      simp [read_some, hb, stream, hs]
    have hc : read_capacity ((size, env, tls) :: rs) =
        (if env.ec.failed then 0 else min size env.arrived) + read_capacity rs := rfl
    obtain ⟨out, s2, h2, h3, h4⟩ :=
      ih { s with m_next_layer := (s.m_next_layer.read_some size env).2.2 } hb hs
    refine ⟨(s.m_next_layer.read_some size env).1 ++ out, s2, ?_, ?_, ?_⟩
    · simp [successive_reads, hread, h2]
    · rw [h3, hc]
      simp only [StreamSocket.read_some]
      split_ifs <;> simp [List.take_add]
    · rw [h4, hc]
      simp only [StreamSocket.read_some]
      split_ifs <;> simp [List.drop_drop, Nat.add_comm]

/-- C4. After a server handshake that ends on the plain path, with or without
the detection peek, successive reads hand over the peer's bytes in order from
the first one: after any schedule of reads the bytes returned are exactly the
first bytes of what the peer sent, as many as the reads had room for, and the
transport still holds exactly the rest. Every byte is delivered once, the
peeked bytes included. -/
theorem plain_handshake_reads_deliver_peer_bytes (t : StreamSocket) (options : Options)
    (peek : RecvEnv) (tls : SslEnv) (rs : List (Nat × RecvEnv × SslEnv))
    (hplain : ((new t options).handshake handshake_type.server peek tls).2.m_stream =
      some SocketWrapper.next_layer) :
    ((new t options).handshake handshake_type.server peek tls).1 = ErrorCode.success ∧
    ∃ out s1,
      ((new t options).handshake handshake_type.server peek tls).2.successive_reads rs =
        Except.ok (out, s1) ∧
      out = t.rx.take (read_capacity rs) ∧
      s1.m_next_layer.rx = t.rx.drop (read_capacity rs) := by
  have hb := handshake_buffer_empty (new t options) handshake_type.server peek tls rfl
  have hrx := handshake_plain_rx (new t options) handshake_type.server peek tls rfl hplain
  refine ⟨hrx.2, ?_⟩
  obtain ⟨out, s1, h1, h2, h3⟩ := successive_reads_next_layer rs _ hb hplain
  refine ⟨out, s1, h1, ?_, ?_⟩
  · rw [h2, hrx.1]
    rfl
  · rw [h3, hrx.1]
    rfl

/-- Scenario a: the peer sends `"GET / HTTP/1.1\r\n"`, every option is false
and the role is server; the handshake succeeds as plain, and a read of 6 bytes
followed by one of 10 returns the 16 bytes and leaves the transport empty. -/
theorem plain_handshake_reads_deliver_peer_bytes_witness :
    ((new (fresh_transport GET_request) no_options).handshake handshake_type.server
        (arrived 16) (engine_says ErrorCode.success)).2.m_stream =
      some SocketWrapper.next_layer ∧
    ((new (fresh_transport GET_request) no_options).handshake handshake_type.server
        (arrived 16) (engine_says ErrorCode.success)).1 = ErrorCode.success ∧
    ∃ s1,
      ((new (fresh_transport GET_request) no_options).handshake handshake_type.server
          (arrived 16) (engine_says ErrorCode.success)).2.successive_reads
          [(6, arrived 16, engine_says ErrorCode.success),
           (10, arrived 16, engine_says ErrorCode.success)] =
        Except.ok (GET_request, s1) ∧
      s1.m_next_layer.rx = [] := by
  obtain ⟨h0, out, s1, h1, h2, h3⟩ :=
    plain_handshake_reads_deliver_peer_bytes (fresh_transport GET_request) no_options
      (arrived 16) (engine_says ErrorCode.success)
      [(6, arrived 16, engine_says ErrorCode.success),
       (10, arrived 16, engine_says ErrorCode.success)] (by decide)
  refine ⟨by decide, h0, s1, ?_, ?_⟩
  · rw [h1, h2]
    rfl
  · rw [h3]
    rfl

/-- C5. When the replay buffer holds bytes, `read_some` returns the smaller of
the caller's size and the buffer's size with success, hands over that many
bytes from the front of the buffer, leaves the rest in the buffer, and changes
nothing else: no call reaches the transport or the active stream. -/
theorem read_some_drains_replay_buffer (s : MultiSocketType) (size : Nat) (env : RecvEnv)
    (tls : SslEnv) (h : s.m_buffer.length > 0) :
    s.read_some size env tls =
      Except.ok
        ({ amount := min size s.m_buffer.length,
           data := s.m_buffer.take (min size s.m_buffer.length),
           ec := ErrorCode.success },
         { s with m_buffer := s.m_buffer.drop (min size s.m_buffer.length) }) := by
  simp [read_some, h]

/-- A stream whose replay buffer holds `"GET /"`: a read of 3 bytes returns `"GET"`. -/
theorem read_some_drains_replay_buffer_witness :
    ({ new (fresh_transport GET_request) no_options with
        m_buffer := [71, 69, 84, 32, 47] } : MultiSocketType).m_buffer.length > 0 ∧
    ({ new (fresh_transport GET_request) no_options with
        m_buffer := [71, 69, 84, 32, 47] } : MultiSocketType).read_some 3 (arrived 16)
        (engine_says ErrorCode.success) =
      Except.ok
        ({ amount := 3, data := [71, 69, 84], ec := ErrorCode.success },
         { new (fresh_transport GET_request) no_options with m_buffer := [32, 47] }) :=
  ⟨by decide, read_some_drains_replay_buffer _ 3 (arrived 16) (engine_says ErrorCode.success)
    (by decide)⟩

theorem handshake_transport (s : MultiSocketType) (role : handshake_type) (peek : RecvEnv)
    (tls : SslEnv) :
    (s.handshake role peek tls).2.m_next_layer.is_open = s.m_next_layer.is_open ∧
      ((s.handshake role peek tls).2.m_next_layer.calls = s.m_next_layer.calls ∨
        (s.handshake role peek tls).2.m_next_layer.calls =
          s.m_next_layer.calls ++ [SocketCall.receive_peek 5]) := by
  have h1 := detectHandshake_frame { s with m_role := role } peek
  unfold handshake
  simp only [calcAction_snd]
  split
  · simp [handshakeSsl, createSslStreamSocket, ssl_stream_type.handshake, StreamSocket.engine_io]
  · split_ifs
    · split
      · simp only [handshakeSsl, createSslStreamSocket, ssl_stream_type.handshake,
          StreamSocket.engine_io]
        exact ⟨h1.2.1, Or.inr h1.2.2.1⟩
      · simp only [handshakePlain, createPlainStreamSocket]
        exact ⟨h1.2.1, Or.inr h1.2.2.1⟩
    · exact ⟨h1.2.1, Or.inr h1.2.2.1⟩
  · simp [handshakePlain, createPlainStreamSocket]

theorem detectHandshake_classifies (s : MultiSocketType) (env : RecvEnv)
    (hb : s.m_buffer = []) (hec : env.ec = ErrorCode.success)
    (hne : analyzeHandshake (s.m_next_layer.rx.take (min 5 env.arrived)) ≠ Status.needMore) :
    (s.detectHandshake env).1 = ErrorCode.success ∧
      (s.detectHandshake env).2.m_status =
        analyzeHandshake (s.m_next_layer.rx.take (min 5 env.arrived)) := by
  unfold detectHandshake StreamSocket.receive_peek
  simp [hb, hec, ErrorCode.failed, autoDetectBytes, hne]

/-- C6 (as amended). For role server with `requireServerSsl` set the handshake
never closes the transport. With `requireServerProxy` unset it neither peeks
nor classifies: it creates the TLS stream, makes it the active stream and
returns what the TLS engine's handshake reports, so the stream does not become
a plain one. With `requireServerProxy` set the detection step classifies bytes
that analyse as plain as `plain`, and the post-peek decision is `actionFail`
with the policy code `invalid_argument`. -/
theorem handshake_server_require_tls (s : MultiSocketType) (peek : RecvEnv) (tls : SslEnv)
    (hreq : s.m_options.requireServerSsl = true) (hb : s.m_buffer = []) :
    (s.handshake handshake_type.server peek tls).2.m_next_layer.is_open = s.m_next_layer.is_open ∧
    ((s.handshake handshake_type.server peek tls).2.m_next_layer.calls = s.m_next_layer.calls ∨
      (s.handshake handshake_type.server peek tls).2.m_next_layer.calls =
        s.m_next_layer.calls ++ [SocketCall.receive_peek 5]) ∧
    (s.m_options.requireServerProxy = false →
      (s.handshake handshake_type.server peek tls).1 = tls.ec ∧
      (s.handshake handshake_type.server peek tls).2.m_stream = some SocketWrapper.ssl_stream ∧
      (s.handshake handshake_type.server peek tls).2.m_status = Status.ssl ∧
      (s.handshake handshake_type.server peek tls).2.m_next_layer.calls = s.m_next_layer.calls) ∧
    (s.m_options.requireServerProxy = true → peek.ec = ErrorCode.success →
      analyzeHandshake (s.m_next_layer.rx.take (min 5 peek.arrived)) = Status.plain →
      (s.calcAction handshake_type.server).1 = Action.actionDetect ∧
      ((s.calcAction handshake_type.server).2.detectHandshake peek).1 = ErrorCode.success ∧
      ((s.calcAction handshake_type.server).2.detectHandshake peek).2.m_status = Status.plain ∧
      ((s.calcAction handshake_type.server).2.detectHandshake peek).2.calcDetectAction =
        (Action.actionFail, ErrorCode.invalid_argument)) := by
  refine ⟨(handshake_transport s _ peek tls).1, (handshake_transport s _ peek tls).2, ?_, ?_⟩
  · intro hp
    simp [handshake, calcAction, hreq, hp, handshakeSsl, createSslStreamSocket,
      ssl_stream_type.handshake, StreamSocket.engine_io]
  · intro hp hec hplain
    have hd : ({ s with m_role := handshake_type.server } : MultiSocketType).m_buffer = [] := hb
    have hc := detectHandshake_classifies { s with m_role := handshake_type.server } peek hd hec
      (by simp [hplain])
    have hf := detectHandshake_frame { s with m_role := handshake_type.server } peek
    rw [calcAction_snd]
    refine ⟨by simp [calcAction, hreq, hp], hc.1, hc.2.trans hplain, ?_⟩
    have hst := hc.2.trans hplain
    have ho := hf.2.2.2.2.2.1
    simp only [] at ho
    simp [calcDetectAction, hst, ho, hp, hreq, failedHandshake]

/-- Scenario c with both readings of the options: `"GET / HTTP/1.1\r\n"` from
the peer, role server, `requireServerSsl` set. -/
theorem handshake_server_require_tls_witness :
    (new (fresh_transport GET_request) require_tls_only).m_options.requireServerSsl = true ∧
    ((new (fresh_transport GET_request) require_tls_only).handshake handshake_type.server
        (arrived 16) (engine_says (ErrorCode.other 1))).1 = ErrorCode.other 1 ∧
    ((((new (fresh_transport GET_request) require_tls_and_proxy).calcAction
        handshake_type.server).2.detectHandshake (arrived 16)).2.calcDetectAction =
      (Action.actionFail, ErrorCode.invalid_argument)) :=
  ⟨rfl,
   ((handshake_server_require_tls (new (fresh_transport GET_request) require_tls_only)
      (arrived 16) (engine_says (ErrorCode.other 1)) rfl rfl).2.2.1 rfl).1,
   ((handshake_server_require_tls (new (fresh_transport GET_request) require_tls_and_proxy)
      (arrived 16) (engine_says (ErrorCode.other 1)) rfl rfl).2.2.2 rfl rfl (by decide)).2.2.2⟩

/-- C6, the claim as stated fails: with only `requireServerSsl` set and the
peer sending `"GET / HTTP/1.1\r\n"` (bytes that analyse as plain), the
server handshake does no peek and returns the TLS engine's error, which is not
the policy code. -/
theorem handshake_server_require_tls_counterexample :
    require_tls_only.requireServerSsl = true ∧
    analyzeHandshake (GET_request.take 5) = Status.plain ∧
    ((new (fresh_transport GET_request) require_tls_only).handshake handshake_type.server
        (arrived 16) (engine_says (ErrorCode.other 1))).1 = ErrorCode.other 1 ∧
    ((new (fresh_transport GET_request) require_tls_only).handshake handshake_type.server
        (arrived 16) (engine_says (ErrorCode.other 1))).1 ≠ ErrorCode.invalid_argument ∧
    ((new (fresh_transport GET_request) require_tls_only).handshake handshake_type.server
        (arrived 16) (engine_says (ErrorCode.other 1))).2.m_next_layer.calls = [] := by
  decide

theorem read_some_unset (s : MultiSocketType) (size : Nat) (env : RecvEnv) (tls : SslEnv)
    (hs : s.m_stream = none) (hb : s.m_buffer = []) :
    s.read_some size env tls = Except.error Fault.fatal_assert := by
  simp [read_some, stream, hs, hb]

theorem write_some_unset (s : MultiSocketType) (data : List Nat) (env : SendEnv) (tls : SslEnv)
    (hs : s.m_stream = none) :
    s.write_some data env tls = Except.error Fault.fatal_assert := by
  simp [write_some, stream, hs]

theorem read_some_ssl (s : MultiSocketType) (x : ssl_stream_type) (size : Nat) (env : RecvEnv)
    (tls : SslEnv) (hs : s.m_stream = some SocketWrapper.ssl_stream)
    (hx : s.m_ssl_stream = some x) (hb : s.m_buffer = []) :
    s.read_some size env tls =
      Except.ok
        ({ amount := (x.read_some s.m_next_layer size tls).1.length,
           data := (x.read_some s.m_next_layer size tls).1,
           ec := (x.read_some s.m_next_layer size tls).2.1 },
         { s with m_ssl_stream := some (x.read_some s.m_next_layer size tls).2.2.1,
                  m_next_layer := (x.read_some s.m_next_layer size tls).2.2.2 }) := by
  simp [read_some, stream, hs, hx, hb]

theorem write_some_ssl (s : MultiSocketType) (x : ssl_stream_type) (data : List Nat)
    (env : SendEnv) (tls : SslEnv) (hs : s.m_stream = some SocketWrapper.ssl_stream)
    (hx : s.m_ssl_stream = some x) :
    s.write_some data env tls =
      Except.ok
        (((x.write_some s.m_next_layer data tls).1, (x.write_some s.m_next_layer data tls).2.1),
         { s with m_ssl_stream := some (x.write_some s.m_next_layer data tls).2.2.1,
                  m_next_layer := (x.write_some s.m_next_layer data tls).2.2.2 }) := by
  simp [write_some, stream, hs, hx]

/-- C8 (as amended). On a stream with no active stream and an empty replay
buffer, `read_some` stops at the fatal assertion of `stream ()`: the call ends
there, returns no error result and makes no call on the transport. -/
theorem read_some_before_handshake (s : MultiSocketType) (size : Nat) (env : RecvEnv)
    (tls : SslEnv) (hs : s.m_stream = none) (hb : s.m_buffer = []) :
    s.stream = Except.error Fault.fatal_assert ∧
    s.read_some size env tls = Except.error Fault.fatal_assert := by
  refine ⟨by simp [stream, hs], read_some_unset s size env tls hs hb⟩

/-- A newly constructed stream over a transport with bytes waiting: a read of
16 bytes ends at the fatal assertion. -/
theorem read_some_before_handshake_witness :
    (new (fresh_transport GET_request) enable_tls_only).m_stream = none ∧
    (new (fresh_transport GET_request) enable_tls_only).m_buffer = [] ∧
    (new (fresh_transport GET_request) enable_tls_only).read_some 16 (arrived 16)
      (engine_says ErrorCode.success) = Except.error Fault.fatal_assert :=
  ⟨rfl, rfl, (read_some_before_handshake (new (fresh_transport GET_request) enable_tls_only) 16
    (arrived 16) (engine_says ErrorCode.success) rfl rfl).2⟩

/-- C8, the claim as stated fails: on a newly constructed stream `read_some`
does not return at all, with any error code; it ends at the fatal assertion. -/
theorem read_some_before_handshake_counterexample :
    (new (fresh_transport []) no_options).m_stream = none ∧
    (new (fresh_transport []) no_options).m_buffer = [] ∧
    (new (fresh_transport []) no_options).m_status = Status.needMore ∧
    ¬ ∃ r, (new (fresh_transport []) no_options).read_some 8 (arrived 0)
      (engine_says ErrorCode.success) = Except.ok r := by
  refine ⟨rfl, rfl, rfl, ?_⟩
  rintro ⟨r, hr⟩
  have h : (new (fresh_transport []) no_options).read_some 8 (arrived 0)
      (engine_says ErrorCode.success) = Except.error Fault.fatal_assert := rfl
  rw [h] at hr
  cases hr

theorem handshakeSsl_result (s : MultiSocketType) (tls : SslEnv) :
    (s.handshakeSsl tls).1 = tls.ec ∧
      (s.handshakeSsl tls).2.m_stream = some SocketWrapper.ssl_stream ∧
      (s.handshakeSsl tls).2.m_ssl_stream = some { calls := [SslCall.handshake s.m_role] } ∧
      (s.handshakeSsl tls).2.m_buffer = s.m_buffer ∧
      (s.handshakeSsl tls).2.m_status = Status.ssl := by
  simp [handshakeSsl, createSslStreamSocket, ssl_stream_type.handshake]

/-- C9, the claim as stated fails: with only `requireServerSsl` set and a TLS
engine that rejects the handshake, the server handshake returns the engine's
error, yet the TLS stream is the active stream, and a following read returns
normally after being passed on to the TLS stream. -/
theorem handshake_error_leaves_stream_counterexample :
    ((new (fresh_transport GET_request) require_tls_only).handshake handshake_type.server
        (arrived 16) (engine_says (ErrorCode.other 1))).1 = ErrorCode.other 1 ∧
    ((new (fresh_transport GET_request) require_tls_only).handshake handshake_type.server
        (arrived 16) (engine_says (ErrorCode.other 1))).2.m_stream =
      some SocketWrapper.ssl_stream ∧
    (((new (fresh_transport GET_request) require_tls_only).handshake handshake_type.server
        (arrived 16) (engine_says (ErrorCode.other 1))).2.read_some 16 (arrived 16)
        (engine_says (ErrorCode.other 1))).map (fun r => (r.1, r.2.m_ssl_stream)) =
      Except.ok
        ({ amount := 0, data := [], ec := ErrorCode.other 1 },
         some { calls := [SslCall.handshake handshake_type.server, SslCall.read_some 16] }) := by
  refine ⟨rfl, rfl, rfl⟩

/-- C10 (as amended). `shutdown` keeps no record of an earlier shutdown: each
of two calls in a row does its I/O and returns the code that I/O reports. When
`m_status` is `ssl` both calls go to the TLS stream; otherwise both shut down
both directions of the transport. -/
theorem shutdown_twice_repeats_io (s : MultiSocketType) (x : ssl_stream_type)
    (ec1 ec2 : ErrorCode) (tls1 tls2 : SslEnv)
    (hx : s.m_status = Status.ssl → s.m_ssl_stream = some x) :
    s.shutdown_twice ec1 tls1 ec2 tls2 =
      if s.m_status = Status.ssl then
        Except.ok (tls1.ec, tls2.ec,
          { s with
            m_ssl_stream := some { calls := x.calls ++ [SslCall.shutdown, SslCall.shutdown] },
            m_next_layer := (s.m_next_layer.engine_io tls1).engine_io tls2 })
      else
        Except.ok (ec1, ec2,
          { s with
            m_next_layer :=
              { s.m_next_layer with
                calls := s.m_next_layer.calls ++
                  [SocketCall.shutdown_both, SocketCall.shutdown_both] } }) := by
  by_cases h : s.m_status = Status.ssl
  · simp [shutdown_twice, shutdown, h, hx h, ssl_stream_type.shutdown]
  · simp [shutdown_twice, shutdown, h, StreamSocket.shutdown_both]

/-- A server stream made ready over TLS (only `requireServerSsl` set, the
engine accepts): two shutdowns in a row both reach the TLS stream. -/
theorem shutdown_twice_repeats_io_witness :
    (((new (fresh_transport []) require_tls_only).handshake handshake_type.server
        (arrived 0) (engine_says ErrorCode.success)).2.shutdown_twice ErrorCode.success
        (engine_says ErrorCode.success) ErrorCode.success (engine_says ErrorCode.success)).map
      (fun r => (r.1, r.2.1, r.2.2.m_ssl_stream)) =
      Except.ok (ErrorCode.success, ErrorCode.success,
        some { calls := [SslCall.handshake handshake_type.server, SslCall.shutdown,
          SslCall.shutdown] }) := by
  rw [shutdown_twice_repeats_io _ { calls := [SslCall.handshake handshake_type.server] }
    ErrorCode.success ErrorCode.success (engine_says ErrorCode.success)
    (engine_says ErrorCode.success) (fun _ => rfl)]
  rfl

/-- C10, the claim as stated fails: on a ready plain stream a second
`shutdown` after a successful first one shuts the transport down again, and
it returns the transport's code for that second call, here an error. -/
theorem shutdown_twice_counterexample :
    ((new (fresh_transport GET_request) no_options).handshake handshake_type.server
        (arrived 16) (engine_says ErrorCode.success)).1 = ErrorCode.success ∧
    (((new (fresh_transport GET_request) no_options).handshake handshake_type.server
        (arrived 16) (engine_says ErrorCode.success)).2.shutdown_twice ErrorCode.success
        (engine_says ErrorCode.success) (ErrorCode.other 107)
        (engine_says ErrorCode.success)).map
      (fun r => (r.1, r.2.1, r.2.2.m_next_layer.calls)) =
      Except.ok (ErrorCode.success, ErrorCode.other 107,
        [SocketCall.shutdown_both, SocketCall.shutdown_both]) := by
  refine ⟨rfl, rfl⟩

theorem handshake_options (s : MultiSocketType) (role : handshake_type) (peek : RecvEnv)
    (tls : SslEnv) : (s.handshake role peek tls).2.m_options = s.m_options := by
  have h1 := detectHandshake_frame { s with m_role := role } peek
  unfold handshake
  simp only [calcAction_snd]
  split
  · simp [handshakeSsl, createSslStreamSocket]
  · split_ifs
    · split
      · simpa [handshakeSsl, createSslStreamSocket] using h1.2.2.2.2.2.1
      · simpa [handshakePlain, createPlainStreamSocket] using h1.2.2.2.2.2.1
    · exact h1.2.2.2.2.2.1
  · simp [handshakePlain, createPlainStreamSocket]

theorem detectHandshake_core (s u : MultiSocketType) (env : RecvEnv)
    (hb : s.m_buffer = u.m_buffer) (ht : s.m_next_layer = u.m_next_layer)
    (ho : s.m_options = u.m_options) :
    (s.detectHandshake env).1 = (u.detectHandshake env).1 ∧
      ((s.detectHandshake env).1.failed = false →
        (s.detectHandshake env).2.m_status = (u.detectHandshake env).2.m_status) ∧
      (s.detectHandshake env).2.m_options = (u.detectHandshake env).2.m_options ∧
      (s.detectHandshake env).2.m_next_layer = (u.detectHandshake env).2.m_next_layer := by
  unfold detectHandshake StreamSocket.receive_peek
  simp only [hb, ht, ho]
  split_ifs <;> simp_all [ErrorCode.failed]

theorem handshake_core (s : MultiSocketType) (role : handshake_type) (peek : RecvEnv)
    (tls : SslEnv) (hb : s.m_buffer = []) :
    (s.handshake role peek tls).1 =
        ((new s.m_next_layer s.m_options).handshake role peek tls).1 ∧
      ((s.handshake role peek tls).1.failed = false →
        (s.handshake role peek tls).2.m_stream =
            ((new s.m_next_layer s.m_options).handshake role peek tls).2.m_stream ∧
          (s.handshake role peek tls).2.m_status =
            ((new s.m_next_layer s.m_options).handshake role peek tls).2.m_status ∧
          ((s.handshake role peek tls).2.m_stream = some SocketWrapper.ssl_stream →
            (s.handshake role peek tls).2.m_ssl_stream =
              ((new s.m_next_layer s.m_options).handshake role peek tls).2.m_ssl_stream)) := by
  have ha : (s.calcAction role).1 = ((new s.m_next_layer s.m_options).calcAction role).1 := by
    unfold calcAction
    simp only [new]
    split_ifs <;> rfl
  have hc := detectHandshake_core { s with m_role := role }
    { new s.m_next_layer s.m_options with m_role := role } peek hb rfl rfl
  unfold handshake
  simp only [calcAction_snd, ha]
  cases ((new s.m_next_layer s.m_options).calcAction role).1
  · simp only []
    rw [← hc.1]
    cases hf : ((({ s with m_role := role } : MultiSocketType).detectHandshake peek).1).failed
    · have hst := hc.2.1 hf
      have hopt := hc.2.2.1
      have hda : ((({ s with m_role := role } : MultiSocketType).detectHandshake
            peek).2.calcDetectAction).1 =
          ((({ new s.m_next_layer s.m_options with m_role := role } :
            MultiSocketType).detectHandshake peek).2.calcDetectAction).1 := by
        simp only [calcDetectAction, hst, hopt]
      simp only [Bool.not_false, if_true]
      rw [← hda]
      have hr1 := (detectHandshake_frame ({ s with m_role := role } : MultiSocketType)
        peek).2.2.2.2.2.2
      have hr2 := (detectHandshake_frame
        ({ new s.m_next_layer s.m_options with m_role := role } : MultiSocketType)
        peek).2.2.2.2.2.2
      simp only [] at hr1 hr2
      cases ((({ s with m_role := role } : MultiSocketType).detectHandshake
            peek).2.calcDetectAction).1 <;>
        simp [handshakePlain, createPlainStreamSocket, handshakeSsl, createSslStreamSocket,
          ssl_stream_type.handshake, hr1, hr2]
    · have h2 := hf
      rw [hc.1] at h2
      simp [hc.1]
      intro h
      exact absurd (h.symm.trans h2) (by decide)
  · simp [handshakePlain, createPlainStreamSocket]
  · simp [handshakeSsl, createSslStreamSocket, ssl_stream_type.handshake]
  · simp [handshakePlain, createPlainStreamSocket]

/-- C11 (as amended). `handshake` has no guard against a second call. A
further call after a first one has resolved does not fail at once: it returns
the code a first handshake on a new object over the same transport and options
would return, and when that code is success it installs the active stream,
the classification and, on the TLS path, the TLS session that such a first
handshake would install, in place of those the first call had set. -/
theorem second_handshake_runs_again (s : MultiSocketType) (role1 : handshake_type)
    (peek1 : RecvEnv) (tls1 : SslEnv) (role2 : handshake_type) (peek2 : RecvEnv) (tls2 : SslEnv)
    (hb : s.m_buffer = []) :
    (s.handshake_twice role1 peek1 tls1 role2 peek2 tls2).1 =
      ((new (s.handshake role1 peek1 tls1).2.m_next_layer s.m_options).handshake
        role2 peek2 tls2).1 ∧
    ((s.handshake_twice role1 peek1 tls1 role2 peek2 tls2).1.failed = false →
      (s.handshake_twice role1 peek1 tls1 role2 peek2 tls2).2.m_stream =
        ((new (s.handshake role1 peek1 tls1).2.m_next_layer s.m_options).handshake
          role2 peek2 tls2).2.m_stream ∧
      (s.handshake_twice role1 peek1 tls1 role2 peek2 tls2).2.m_status =
        ((new (s.handshake role1 peek1 tls1).2.m_next_layer s.m_options).handshake
          role2 peek2 tls2).2.m_status ∧
      ((s.handshake_twice role1 peek1 tls1 role2 peek2 tls2).2.m_stream =
          some SocketWrapper.ssl_stream →
        (s.handshake_twice role1 peek1 tls1 role2 peek2 tls2).2.m_ssl_stream =
          ((new (s.handshake role1 peek1 tls1).2.m_next_layer s.m_options).handshake
            role2 peek2 tls2).2.m_ssl_stream)) := by
  have h := handshake_core (s.handshake role1 peek1 tls1).2 role2 peek2 tls2
    (handshake_buffer_empty s role1 peek1 tls1 hb)
  rw [handshake_options] at h
  exact h

/-- A stream with only `useClientSsl` set: a server handshake makes it plain,
and a client handshake after it succeeds again and makes it a TLS stream. -/
theorem second_handshake_runs_again_witness :
    (new (fresh_transport GET_request) client_tls_only).m_buffer = [] ∧
    ((new (fresh_transport GET_request) client_tls_only).handshake_twice handshake_type.server
        (arrived 16) (engine_says ErrorCode.success) handshake_type.client (arrived 16)
        (engine_says ErrorCode.success)).1 = ErrorCode.success ∧
    ((new (fresh_transport GET_request) client_tls_only).handshake_twice handshake_type.server
        (arrived 16) (engine_says ErrorCode.success) handshake_type.client (arrived 16)
        (engine_says ErrorCode.success)).2.m_stream = some SocketWrapper.ssl_stream := by
  have h := second_handshake_runs_again (new (fresh_transport GET_request) client_tls_only)
    handshake_type.server (arrived 16) (engine_says ErrorCode.success) handshake_type.client
    (arrived 16) (engine_says ErrorCode.success) rfl
  refine ⟨rfl, ?_, ?_⟩
  · rw [h.1]
    rfl
  · rw [(h.2 rfl).1]
    rfl

/-- C11, the claim as stated fails: with only `useClientSsl` set, a server
handshake succeeds as plain; a client handshake called after it does not fail
but succeeds, and it replaces the active stream, the classification and the
TLS session. -/
theorem second_handshake_counterexample :
    ((new (fresh_transport GET_request) client_tls_only).handshake handshake_type.server
        (arrived 16) (engine_says ErrorCode.success)).1 = ErrorCode.success ∧
    ((new (fresh_transport GET_request) client_tls_only).handshake handshake_type.server
        (arrived 16) (engine_says ErrorCode.success)).2.m_stream =
      some SocketWrapper.next_layer ∧
    ((new (fresh_transport GET_request) client_tls_only).handshake handshake_type.server
        (arrived 16) (engine_says ErrorCode.success)).2.m_status = Status.plain ∧
    ((new (fresh_transport GET_request) client_tls_only).handshake handshake_type.server
        (arrived 16) (engine_says ErrorCode.success)).2.m_ssl_stream = none ∧
    ((new (fresh_transport GET_request) client_tls_only).handshake_twice handshake_type.server
        (arrived 16) (engine_says ErrorCode.success) handshake_type.client (arrived 16)
        (engine_says ErrorCode.success)).1 = ErrorCode.success ∧
    ((new (fresh_transport GET_request) client_tls_only).handshake_twice handshake_type.server
        (arrived 16) (engine_says ErrorCode.success) handshake_type.client (arrived 16)
        (engine_says ErrorCode.success)).2.m_stream = some SocketWrapper.ssl_stream ∧
    ((new (fresh_transport GET_request) client_tls_only).handshake_twice handshake_type.server
        (arrived 16) (engine_says ErrorCode.success) handshake_type.client (arrived 16)
        (engine_says ErrorCode.success)).2.m_status = Status.ssl ∧
    ((new (fresh_transport GET_request) client_tls_only).handshake_twice handshake_type.server
        (arrived 16) (engine_says ErrorCode.success) handshake_type.client (arrived 16)
        (engine_says ErrorCode.success)).2.m_ssl_stream =
      some { calls := [SslCall.handshake handshake_type.client] } := by
  decide

theorem analyzeHandshake_take (b : List Nat) (n : Nat) (h : 5 ≤ n) :
    analyzeHandshake (b.take n) = analyzeHandshake (b.take 5) := by
  have e : (b.take n).take 5 = (b.take 5).take 5 := by
    rw [List.take_take, List.take_take]
    congr 1
    omega
  unfold analyzeHandshake
  simp only [e]

theorem analyzeHandshake_needMore_iff (b : List Nat) :
    analyzeHandshake b = Status.needMore ↔ b = [] := by
  rcases b with _ | ⟨a0, t⟩
  · simp [analyzeHandshake]
  · simp only [analyzeHandshake]
    have : (List.take 5 (a0 :: t)).length > 0 := by simp
    simp only [this, if_true]
    split_ifs <;> simp

theorem analyzeHandshake_fifth (a0 a1 a2 a3 a4 : Nat) (t : List Nat) :
    (analyzeHandshake ((a0 :: a1 :: a2 :: a3 :: a4 :: t).take 4) = Status.ssl →
        analyzeHandshake ((a0 :: a1 :: a2 :: a3 :: a4 :: t).take (4 + 1)) = Status.ssl) ∧
      (analyzeHandshake ((a0 :: a1 :: a2 :: a3 :: a4 :: t).take 4) ≠ Status.proxy) ∧
      (analyzeHandshake ((a0 :: a1 :: a2 :: a3 :: a4 :: t).take 4) = Status.plain →
        analyzeHandshake ((a0 :: a1 :: a2 :: a3 :: a4 :: t).take (4 + 1)) = Status.plain ∨
        (isPrintable ((a0 :: a1 :: a2 :: a3 :: a4 :: t).getD 4 0) = false ∧
          analyzeHandshake ((a0 :: a1 :: a2 :: a3 :: a4 :: t).take (4 + 1)) = Status.ssl) ∨
        (4 = 4 ∧ (a0 :: a1 :: a2 :: a3 :: a4 :: t).take 5 = PROXY ∧
          analyzeHandshake ((a0 :: a1 :: a2 :: a3 :: a4 :: t).take (4 + 1)) = Status.proxy)) := by
  by_cases hq : a0 = 80 ∧ a1 = 82 ∧ a2 = 79 ∧ a3 = 88 ∧ a4 = 89
  · obtain ⟨h0, h1, h2, h3, h4⟩ := hq
    subst h0 h1 h2 h3 h4
    simp [analyzeHandshake, isPrintable, memcmp_ne, PROXY]
  · simp only [analyzeHandshake, memcmp_ne, PROXY]
    simp
    cases isPrintable a0 <;> cases isPrintable a1 <;> cases isPrintable a2 <;>
      cases isPrintable a3 <;> cases isPrintable a4 <;> simp_all

theorem analyzeHandshake_extend_small (b : List Nat) (k : Nat) (hk : k < b.length) (h5 : k < 5) :
    (analyzeHandshake (b.take k) = Status.ssl →
        analyzeHandshake (b.take (k + 1)) = Status.ssl) ∧
      (analyzeHandshake (b.take k) ≠ Status.proxy) ∧
      (analyzeHandshake (b.take k) = Status.plain →
        analyzeHandshake (b.take (k + 1)) = Status.plain ∨
        (isPrintable (b.getD k 0) = false ∧
          analyzeHandshake (b.take (k + 1)) = Status.ssl) ∨
        (k = 4 ∧ b.take 5 = PROXY ∧ analyzeHandshake (b.take (k + 1)) = Status.proxy)) := by
  rcases b with _ | ⟨a0, _ | ⟨a1, _ | ⟨a2, _ | ⟨a3, _ | ⟨a4, t⟩⟩⟩⟩⟩ <;>
    interval_cases k <;>
    first
    | (exfalso; simp at hk; done)
    | exact analyzeHandshake_fifth a0 a1 a2 a3 a4 t
    | (simp [analyzeHandshake, isPrintable, memcmp_ne, PROXY]
       try (split_ifs <;> simp_all <;> omega))

/-- C12 (as amended). Adding one byte to a prefix never changes a result of
`ssl` or `proxy`, and never changes the result once the prefix has five bytes
or more; `needMore` is the result of the empty prefix only and always gives
way to a decisive value. A result of `plain` on one to four bytes is not final:
with one more byte it stays `plain`, or becomes `ssl` when the added byte is
not printable, or becomes `proxy` when the fifth byte completes `"PROXY"`. -/
theorem analyzeHandshake_extend (b : List Nat) (k : Nat) (hk : k < b.length) :
    (analyzeHandshake (b.take k) = Status.needMore ↔ k = 0) ∧
    analyzeHandshake (b.take (k + 1)) ≠ Status.needMore ∧
    (analyzeHandshake (b.take k) = Status.ssl →
      analyzeHandshake (b.take (k + 1)) = Status.ssl) ∧
    (analyzeHandshake (b.take k) = Status.proxy →
      analyzeHandshake (b.take (k + 1)) = Status.proxy) ∧
    (5 ≤ k → analyzeHandshake (b.take (k + 1)) = analyzeHandshake (b.take k)) ∧
    (analyzeHandshake (b.take k) = Status.plain →
      analyzeHandshake (b.take (k + 1)) = Status.plain ∨
      (k < 5 ∧ isPrintable (b.getD k 0) = false ∧
        analyzeHandshake (b.take (k + 1)) = Status.ssl) ∨
      (k = 4 ∧ b.take 5 = PROXY ∧ analyzeHandshake (b.take (k + 1)) = Status.proxy)) := by
  have hn0 : (analyzeHandshake (b.take k) = Status.needMore ↔ k = 0) := by
    rw [analyzeHandshake_needMore_iff, List.take_eq_nil_iff]
    constructor
    · rintro (h | h)
      · exact h
      · rw [h] at hk
        exact absurd hk (by simp)
    · intro h
      exact Or.inl h
  have hn1 : analyzeHandshake (b.take (k + 1)) ≠ Status.needMore := by
    rw [Ne, analyzeHandshake_needMore_iff, List.take_eq_nil_iff]
    rintro (h | h)
    · omega
    · rw [h] at hk
      exact absurd hk (by simp)
  by_cases h5 : 5 ≤ k
  · have e : analyzeHandshake (b.take (k + 1)) = analyzeHandshake (b.take k) := by
      rw [analyzeHandshake_take b (k + 1) (by omega), analyzeHandshake_take b k h5]
    refine ⟨hn0, hn1, ?_, ?_, fun _ => e, ?_⟩
    · intro h
      rw [e, h]
    · intro h
      rw [e, h]
    · intro h
      exact Or.inl (by rw [e, h])
  · have hs := analyzeHandshake_extend_small b k hk (by omega)
    refine ⟨hn0, hn1, hs.1, fun h => absurd h hs.2.1, fun h => absurd h h5, ?_⟩
    intro h
    rcases hs.2.2 h with h1 | ⟨h1, h2⟩ | h1
    · exact Or.inl h1
    · exact Or.inr (Or.inl ⟨by omega, h1, h2⟩)
    · exact Or.inr (Or.inr h1)

/-- The prefix `"GET"` of `"GET / HTTP/1.1\r\n"` and the byte after it. -/
theorem analyzeHandshake_extend_witness :
    3 < GET_request.length ∧
    ((analyzeHandshake (GET_request.take 3) = Status.needMore ↔ 3 = 0) ∧
    analyzeHandshake (GET_request.take (3 + 1)) ≠ Status.needMore ∧
    (analyzeHandshake (GET_request.take 3) = Status.ssl →
      analyzeHandshake (GET_request.take (3 + 1)) = Status.ssl) ∧
    (analyzeHandshake (GET_request.take 3) = Status.proxy →
      analyzeHandshake (GET_request.take (3 + 1)) = Status.proxy) ∧
    (5 ≤ 3 → analyzeHandshake (GET_request.take (3 + 1)) =
      analyzeHandshake (GET_request.take 3)) ∧
    (analyzeHandshake (GET_request.take 3) = Status.plain →
      analyzeHandshake (GET_request.take (3 + 1)) = Status.plain ∨
      (3 < 5 ∧ isPrintable (GET_request.getD 3 0) = false ∧
        analyzeHandshake (GET_request.take (3 + 1)) = Status.ssl) ∨
      (3 = 4 ∧ GET_request.take 5 = PROXY ∧
        analyzeHandshake (GET_request.take (3 + 1)) = Status.proxy))) :=
  ⟨by decide, analyzeHandshake_extend GET_request 3 (by decide)⟩

/-- C12, the claim as stated fails: the four bytes `"PROX"` classify as
`plain` and the five bytes `"PROXY"` as `proxy`, and `"GET"` classifies as
`plain` while `"GET"` followed by the byte 22 classifies as `ssl`. -/
theorem analyzeHandshake_monotone_counterexample :
    4 < PROXY.length ∧
    analyzeHandshake (PROXY.take 4) = Status.plain ∧
    analyzeHandshake (PROXY.take (4 + 1)) = Status.proxy ∧
    3 < [71, 69, 84, 22].length ∧
    analyzeHandshake ([71, 69, 84, 22].take 3) = Status.plain ∧
    analyzeHandshake ([71, 69, 84, 22].take (3 + 1)) = Status.ssl := by
  decide

/-- C13 (as amended). In the buffered handshake, whenever the decided action
is plain, before the peek or after it, the result depends on the caller's
bytes alone: with none the plain stream is created and the code is success;
with some the call ends at the fatal assertion of `handshakePlain`, returns no
error code and creates no plain stream. -/
theorem handshake_buffers_plain (s : MultiSocketType) (type : handshake_type)
    (buffers : List Nat) (peek : RecvEnv) (tls : SslEnv) :
    ((s.calcAction type).1 = Action.actionPlain →
      s.handshake_buffers type buffers peek tls =
        if buffers.length = 0 then
          Except.ok (ErrorCode.success, (s.calcAction type).2.createPlainStreamSocket)
        else Except.error Fault.fatal_assert) ∧
    ((s.calcAction type).1 = Action.actionDetect →
      ((s.calcAction type).2.detectHandshake_buffers buffers peek).1.failed = false →
      (((s.calcAction type).2.detectHandshake_buffers buffers peek).2.calcDetectAction).1 =
        Action.actionPlain →
      s.handshake_buffers type buffers peek tls =
        if buffers.length = 0 then
          Except.ok (ErrorCode.success,
            ((s.calcAction type).2.detectHandshake_buffers buffers
              peek).2.createPlainStreamSocket)
        else Except.error Fault.fatal_assert) := by
  constructor
  · intro h
    simp [handshake_buffers, h, handshakePlain_buffers]
  · intro h hf hp
    simp [handshake_buffers, h, hf, hp, handshakePlain_buffers]

/-- Scenario f and its counterpart: role server, every option false; with the
one byte 1 preloaded the call ends at the fatal assertion, with nothing
preloaded the handshake succeeds as plain. -/
theorem handshake_buffers_plain_witness :
    ((new (fresh_transport GET_request) no_options).calcAction handshake_type.server).1 =
      Action.actionPlain ∧
    (new (fresh_transport GET_request) no_options).handshake_buffers handshake_type.server [1]
      (arrived 16) (engine_says ErrorCode.success) = Except.error Fault.fatal_assert ∧
    (new (fresh_transport GET_request) no_options).handshake_buffers handshake_type.server []
      (arrived 16) (engine_says ErrorCode.success) =
      Except.ok (ErrorCode.success,
        { new (fresh_transport GET_request) no_options with
          m_role := handshake_type.server, m_status := Status.plain,
          m_stream := some SocketWrapper.next_layer }) :=
  ⟨rfl,
   (handshake_buffers_plain (new (fresh_transport GET_request) no_options)
      handshake_type.server [1] (arrived 16) (engine_says ErrorCode.success)).1 rfl,
   (handshake_buffers_plain (new (fresh_transport GET_request) no_options)
      handshake_type.server [] (arrived 16) (engine_says ErrorCode.success)).1 rfl⟩

/-- C13, the claim as stated fails: `handshake (server, preloaded = [0x01])`
with every option false returns no result at all, so no `invalid_usage` code;
it ends at the fatal assertion. -/
theorem handshake_buffers_plain_counterexample :
    (new (fresh_transport []) no_options).handshake_buffers handshake_type.server [1]
      (arrived 0) (engine_says ErrorCode.success) = Except.error Fault.fatal_assert ∧
    ¬ ∃ r, (new (fresh_transport []) no_options).handshake_buffers handshake_type.server [1]
      (arrived 0) (engine_says ErrorCode.success) = Except.ok r := by
  refine ⟨rfl, ?_⟩
  rintro ⟨r, hr⟩
  have h : (new (fresh_transport []) no_options).handshake_buffers handshake_type.server [1]
      (arrived 0) (engine_says ErrorCode.success) = Except.error Fault.fatal_assert := rfl
  rw [h] at hr
  cases hr

/-- C14. For role client and every options value the handshake makes no call
on the transport and leaves the replay buffer as it was, empty on a new
object. With `useClientSsl` set it creates the TLS stream, makes it the active
stream and starts the engine's handshake in role client, returning the
engine's code; with it unset it installs the plain stream and returns success,
and the transport is untouched. -/
theorem handshake_client (s : MultiSocketType) (peek : RecvEnv) (tls : SslEnv) :
    s.handshake handshake_type.client peek tls =
      (if s.m_options.useClientSsl then
        (tls.ec,
          { s with
            m_role := handshake_type.client, m_status := Status.ssl,
            m_stream := some SocketWrapper.ssl_stream,
            m_ssl_stream := some { calls := [SslCall.handshake handshake_type.client] },
            m_next_layer := s.m_next_layer.engine_io tls })
      else
        (ErrorCode.success,
          { s with
            m_role := handshake_type.client, m_status := Status.plain,
            m_stream := some SocketWrapper.next_layer })) ∧
    (s.handshake handshake_type.client peek tls).2.m_next_layer.calls = s.m_next_layer.calls ∧
    (s.handshake handshake_type.client peek tls).2.m_buffer = s.m_buffer ∧
    ((new s.m_next_layer s.m_options).handshake handshake_type.client peek tls).2.m_buffer
      = [] := by
  have e : s.handshake handshake_type.client peek tls =
      (if s.m_options.useClientSsl then
        (tls.ec,
          { s with
            m_role := handshake_type.client, m_status := Status.ssl,
            m_stream := some SocketWrapper.ssl_stream,
            m_ssl_stream := some { calls := [SslCall.handshake handshake_type.client] },
            m_next_layer := s.m_next_layer.engine_io tls })
      else
        (ErrorCode.success,
          { s with
            m_role := handshake_type.client, m_status := Status.plain,
            m_stream := some SocketWrapper.next_layer })) := by
    cases hu : s.m_options.useClientSsl <;>
      simp [handshake, calcAction, hu, handshakePlain, createPlainStreamSocket, handshakeSsl,
        createSslStreamSocket, ssl_stream_type.handshake]
  refine ⟨e, ?_, ?_, ?_⟩
  · rw [e]
    split_ifs <;> simp [StreamSocket.engine_io]
  · rw [e]
    split_ifs <;> rfl
  · cases hu : s.m_options.useClientSsl <;>
      simp [handshake, calcAction, hu, handshakePlain, createPlainStreamSocket, handshakeSsl,
        createSslStreamSocket, new]

theorem detectHandshake_failed_status (s : MultiSocketType) (env : RecvEnv)
    (hf : (s.detectHandshake env).1.failed = true) (hst : s.m_status = Status.needMore) :
    (s.detectHandshake env).2.m_status = Status.needMore := by
  revert hf
  unfold detectHandshake StreamSocket.receive_peek
  simp only []
  split_ifs <;> simp_all [ErrorCode.failed]

theorem handshake_status_stream (s : MultiSocketType) (role : handshake_type)
    (peek : RecvEnv) (tls : SslEnv) (hs : s.m_stream = none)
    (hst : s.m_status = Status.needMore) :
    ((s.handshake role peek tls).2.m_status = Status.ssl ↔
        (s.handshake role peek tls).2.m_stream = some SocketWrapper.ssl_stream) ∧
      ((s.handshake role peek tls).2.m_status = Status.ssl →
        (s.handshake role peek tls).2.m_ssl_stream =
          some { calls := [SslCall.handshake role] }) := by
  have h3 := handshakeSsl_result { s with m_role := role } tls
  have h4 := handshakeSsl_result
    (({ s with m_role := role } : MultiSocketType).detectHandshake peek).2 tls
  have h2 := detectHandshake_frame { s with m_role := role } peek
  unfold handshake
  simp only [calcAction_snd]
  split
  · exact ⟨⟨fun _ => h3.2.1, fun _ => h3.2.2.2.2⟩, fun _ => h3.2.2.1⟩
  · split_ifs with hf
    · split
      · refine ⟨⟨fun _ => h4.2.1, fun _ => h4.2.2.2.2⟩, fun _ => ?_⟩
        rw [h4.2.2.1, h2.2.2.2.2.2.2]
      · simp [handshakePlain, createPlainStreamSocket]
    · have hf2 : (({ s with m_role := role } : MultiSocketType).detectHandshake
          peek).1.failed = true := by simpa using hf
      have hn := detectHandshake_failed_status { s with m_role := role } peek hf2 hst
      rw [hn, h2.2.2.2.1]
      simp [hs]
  · simp [handshakePlain, createPlainStreamSocket]

/-- C15 (as amended). `shutdown` and `async_shutdown` dispatch on `m_status`,
not on a ready state. When `m_status` is `ssl` they go through the TLS session;
otherwise they shut down both directions of the transport and leave any TLS
session untouched. After a synchronous handshake on a new object `m_status` is
`ssl` exactly when the TLS stream is the active stream, that is when the
handshake took the TLS path, whether the engine's handshake succeeded or not. -/
theorem shutdown_dispatches_on_status (s : MultiSocketType) (x : ssl_stream_type)
    (ec : ErrorCode) (tls : SslEnv) (t : StreamSocket) (options : Options)
    (role : handshake_type) (peek : RecvEnv) (tls0 : SslEnv)
    (hx : s.m_status = Status.ssl → s.m_ssl_stream = some x) :
    s.shutdown ec tls =
      (if s.m_status = Status.ssl then
        Except.ok (tls.ec,
          { s with
            m_ssl_stream := some { calls := x.calls ++ [SslCall.shutdown] },
            m_next_layer := s.m_next_layer.engine_io tls })
      else
        Except.ok (ec,
          { s with
            m_next_layer :=
              { s.m_next_layer with
                calls := s.m_next_layer.calls ++ [SocketCall.shutdown_both] } })) ∧
    s.async_shutdown ec tls =
      (if s.m_status = Status.ssl then
        Except.ok ([HandlerUse.ssl_async_shutdown],
          { s with
            m_ssl_stream := some { calls := x.calls ++ [SslCall.async_shutdown] },
            m_next_layer := s.m_next_layer.engine_io tls })
      else
        Except.ok ([HandlerUse.post ec],
          { s with
            m_next_layer :=
              { s.m_next_layer with
                calls := s.m_next_layer.calls ++ [SocketCall.shutdown_both] } })) ∧
    (((new t options).handshake role peek tls0).2.m_status = Status.ssl ↔
      ((new t options).handshake role peek tls0).2.m_stream =
        some SocketWrapper.ssl_stream) ∧
    (((new t options).handshake role peek tls0).2.m_status = Status.ssl →
      ((new t options).handshake role peek tls0).2.m_ssl_stream =
        some { calls := [SslCall.handshake role] }) := by
  have hh := handshake_status_stream (new t options) role peek tls0 rfl rfl
  refine ⟨?_, ?_, hh.1, hh.2⟩
  · by_cases h : s.m_status = Status.ssl
    · simp [shutdown, h, hx h, ssl_stream_type.shutdown]
    · simp [shutdown, h, StreamSocket.shutdown_both]
  · by_cases h : s.m_status = Status.ssl
    · simp [async_shutdown, h, hx h, ssl_stream_type.async_shutdown]
    · simp [async_shutdown, h, StreamSocket.shutdown_both]

/-- A plain server stream (every option false): `shutdown` shuts down both
directions of the transport and returns the transport's code. -/
theorem shutdown_dispatches_on_status_witness :
    ((new (fresh_transport GET_request) no_options).handshake handshake_type.server
        (arrived 16) (engine_says ErrorCode.success)).2.m_status ≠ Status.ssl ∧
    (((new (fresh_transport GET_request) no_options).handshake handshake_type.server
        (arrived 16) (engine_says ErrorCode.success)).2.shutdown ErrorCode.success
        (engine_says ErrorCode.success)).map (fun r => (r.1, r.2.m_next_layer.calls)) =
      Except.ok (ErrorCode.success, [SocketCall.shutdown_both]) := by
  refine ⟨by decide, ?_⟩
  rw [(shutdown_dispatches_on_status _ { calls := [] } ErrorCode.success
    (engine_says ErrorCode.success) (fresh_transport GET_request) no_options
    handshake_type.server (arrived 16) (engine_says ErrorCode.success)
    (fun h => absurd h (by decide))).1]
  rfl

/-- C15, the claim as stated fails: with only `requireServerSsl` set and a TLS
engine that rejects the handshake, the handshake returns an error, so the
stream is not ready over TLS; `shutdown` still goes through the TLS session
and makes no call on the transport. -/
theorem shutdown_dispatch_counterexample :
    ((new (fresh_transport GET_request) require_tls_only).handshake handshake_type.server
        (arrived 16) (engine_says (ErrorCode.other 1))).1 = ErrorCode.other 1 ∧
    (((new (fresh_transport GET_request) require_tls_only).handshake handshake_type.server
        (arrived 16) (engine_says (ErrorCode.other 1))).2.shutdown ErrorCode.success
        (engine_says ErrorCode.success)).map
      (fun r => (r.2.m_ssl_stream, r.2.m_next_layer.calls)) =
      Except.ok
        (some { calls := [SslCall.handshake handshake_type.server, SslCall.shutdown] }, []) := by
  refine ⟨rfl, rfl⟩

/-- C16, the code at the failing input. Role server, `requireServerSsl` and
`requireServerProxy` set, the peer sends `"GET / HTTP/1.1\r\n"`: the pre-peek
action is detect, the bytes classify as plain and the post-peek decision is
`actionFail` with `invalid_argument`; yet the synchronous handshake returns
success with the plain stream installed, whatever the TLS engine would answer.
The asynchronous handshake on the same input posts the handler with
`invalid_argument` and installs no stream. -/
theorem handshake_policy_fail_installs_plain (tls : SslEnv) :
    ((new (fresh_transport GET_request) require_tls_and_proxy).calcAction
        handshake_type.server).1 = Action.actionDetect ∧
    ((((new (fresh_transport GET_request) require_tls_and_proxy).calcAction
        handshake_type.server).2.detectHandshake (arrived 16)).1 = ErrorCode.success) ∧
    ((((new (fresh_transport GET_request) require_tls_and_proxy).calcAction
        handshake_type.server).2.detectHandshake (arrived 16)).2.m_status = Status.plain) ∧
    ((((new (fresh_transport GET_request) require_tls_and_proxy).calcAction
        handshake_type.server).2.detectHandshake (arrived 16)).2.calcDetectAction =
      (Action.actionFail, ErrorCode.invalid_argument)) ∧
    ((new (fresh_transport GET_request) require_tls_and_proxy).handshake handshake_type.server
        (arrived 16) tls).1 = ErrorCode.success ∧
    ((new (fresh_transport GET_request) require_tls_and_proxy).handshake handshake_type.server
        (arrived 16) tls).2.m_stream = some SocketWrapper.next_layer ∧
    ((new (fresh_transport GET_request) require_tls_and_proxy).async_handshake
        handshake_type.server (arrived 16) tls).1 = [HandlerUse.post ErrorCode.invalid_argument] ∧
    ((new (fresh_transport GET_request) require_tls_and_proxy).async_handshake
        handshake_type.server (arrived 16) tls).2.m_stream = none := by
  refine ⟨rfl, rfl, rfl, rfl, rfl, rfl, rfl, rfl⟩

/-- C17, the code on every peek outcome. `onDetectRead` uses the handler once
when the peek reports no error (it posts it, or hands it to one follow-up
handshake), and not at all when the peek reports an error: the handler is then
dropped, and only the committed bytes change the object. -/
theorem onDetectRead_handler_uses (s : MultiSocketType) (ec : ErrorCode) (data : List Nat)
    (tls : SslEnv) :
    (s.onDetectRead ec data tls).1.length = (if ec.failed then 0 else 1) ∧
    (s.onDetectRead (ErrorCode.other 104) data tls) =
      ([], { s with m_buffer := s.m_buffer ++ data }) := by
  refine ⟨?_, rfl⟩
  have hia : ErrorCode.invalid_argument.failed = true := rfl
  cases hf : ec.failed
  · simp only [onDetectRead, hf, hia]
    simp only [Bool.not_false, if_true, Bool.false_eq_true, if_false]
    split_ifs <;> first
      | rfl
      | (split <;> simp_all [handshakeSslAsync, handshakePlainAsync])
      | simp_all [handshakeSslAsync, handshakePlainAsync]
  · simp [onDetectRead, hf]

theorem onDetectRead_buffer (s : MultiSocketType) (ec : ErrorCode) (data : List Nat)
    (tls : SslEnv) (hb : s.m_buffer = []) (hf : ec.failed = false) :
    (s.onDetectRead ec data tls).2.m_buffer = [] := by
  have hia : ErrorCode.invalid_argument.failed = true := rfl
  by_cases hn : analyzeHandshake data = Status.needMore
  · have hd : data = [] := (analyzeHandshake_needMore_iff data).1 hn
    subst hd
    simp [onDetectRead, hf, hb, hia, analyzeHandshake]
  · simp only [onDetectRead, hf, hb, hia, List.nil_append, hn]
    simp only [Bool.not_false, if_true, Bool.false_eq_true, if_false, ne_eq, not_false_eq_true,
      List.drop_length]
    split_ifs <;> first
      | rfl
      | (split <;> simp [handshakeSslAsync, handshakePlainAsync, createSslStreamSocket,
          createPlainStreamSocket])

/-- C18 (as amended). A detection step that starts with an empty replay buffer
leaves it empty again: the peeked bytes are committed, analysed and consumed
(commit n, consume n), in `detectHandshake` and in `onDetectRead` alike. The
bytes stay available to the first read because the peek did not take them out
of the transport, whose unread bytes `detectHandshake` leaves unchanged. -/
theorem detection_leaves_buffer_empty (s : MultiSocketType) (env : RecvEnv) (ec : ErrorCode)
    (data : List Nat) (tls : SslEnv) (hb : s.m_buffer = []) (hf : ec.failed = false) :
    (s.detectHandshake env).2.m_buffer = [] ∧
    (s.detectHandshake env).2.m_next_layer.rx = s.m_next_layer.rx ∧
    (s.onDetectRead ec data tls).2.m_buffer = [] :=
  ⟨detectHandshake_buffer s env hb, (detectHandshake_frame s env).1,
    onDetectRead_buffer s ec data tls hb hf⟩

/-- A server stream with only `enableServerSsl` set whose peer sent
`"GET / HTTP/1.1\r\n"`: after the peek of five bytes the buffer is empty and
the transport still holds all sixteen bytes. -/
theorem detection_leaves_buffer_empty_witness :
    (new (fresh_transport GET_request) enable_tls_only).m_buffer = [] ∧
    ((new (fresh_transport GET_request) enable_tls_only).detectHandshake
        (arrived 16)).2.m_buffer = [] ∧
    ((new (fresh_transport GET_request) enable_tls_only).detectHandshake
        (arrived 16)).2.m_next_layer.rx = GET_request ∧
    ((new (fresh_transport GET_request) enable_tls_only).onDetectRead ErrorCode.success
        [71, 69, 84, 32, 47] (engine_says ErrorCode.success)).2.m_buffer = [] :=
  ⟨rfl, detection_leaves_buffer_empty (new (fresh_transport GET_request) enable_tls_only)
    (arrived 16) ErrorCode.success [71, 69, 84, 32, 47] (engine_says ErrorCode.success) rfl rfl⟩

/-- C18, the claim as stated fails: after a successful detection step that
peeked the five bytes `"GET /"`, the replay buffer does not hold those five
bytes; it is empty, after `detectHandshake` and after `onDetectRead`. -/
theorem detection_buffer_counterexample :
    ((new (fresh_transport GET_request) enable_tls_only).detectHandshake
        (arrived 16)).1 = ErrorCode.success ∧
    ((new (fresh_transport GET_request) enable_tls_only).m_next_layer.receive_peek 5
        (arrived 16)).1 = [71, 69, 84, 32, 47] ∧
    ((new (fresh_transport GET_request) enable_tls_only).detectHandshake
        (arrived 16)).2.m_buffer = [] ∧
    ((new (fresh_transport GET_request) enable_tls_only).detectHandshake
        (arrived 16)).2.m_buffer ≠ [71, 69, 84, 32, 47] ∧
    ((new (fresh_transport GET_request) enable_tls_only).onDetectRead ErrorCode.success
        [71, 69, 84, 32, 47] (engine_says ErrorCode.success)).1 =
      [HandlerUse.post ErrorCode.success] ∧
    ((new (fresh_transport GET_request) enable_tls_only).onDetectRead ErrorCode.success
        [71, 69, 84, 32, 47] (engine_says ErrorCode.success)).2.m_buffer = [] := by
  decide

/-- C19, the code at the failing input. The peer sent `"GET / HTTP/1.1\r\n"`,
the caller has read the first byte `"G"` and passes it as preloaded bytes, the
transport holds the other fifteen. After `detectHandshake (buffers, ec)` the
replay buffer holds the single byte 32, the sixth byte of the peer's stream:
`"G"` is lost, and the buffer followed by the transport's bytes is not what the
peer sent. -/
theorem detectHandshake_buffers_loses_preload :
    [71] ++ GET_request.drop 1 = GET_request ∧
    ((new (fresh_transport (GET_request.drop 1)) enable_tls_only).detectHandshake_buffers [71]
        (arrived 15)).1 = ErrorCode.success ∧
    ((new (fresh_transport (GET_request.drop 1)) enable_tls_only).detectHandshake_buffers [71]
        (arrived 15)).2.m_status = Status.plain ∧
    ((new (fresh_transport (GET_request.drop 1)) enable_tls_only).detectHandshake_buffers [71]
        (arrived 15)).2.m_buffer = [32] ∧
    ((new (fresh_transport (GET_request.drop 1)) enable_tls_only).detectHandshake_buffers [71]
        (arrived 15)).2.m_next_layer.rx = GET_request.drop 1 ∧
    ((new (fresh_transport (GET_request.drop 1)) enable_tls_only).detectHandshake_buffers [71]
        (arrived 15)).2.m_buffer ++
      ((new (fresh_transport (GET_request.drop 1)) enable_tls_only).detectHandshake_buffers [71]
        (arrived 15)).2.m_next_layer.rx ≠ GET_request := by
  decide

/-- C20. `analyzeHandshake` gives `needMore` for the empty input and for no
other. So in `detectHandshake`, started with an empty buffer, a peek that
reports no error ends in the `needMore` failure exactly when it returned no
byte, the code then being `invalid_argument`; and a peek that reports an error
returns that error and leaves `m_status` as it was. -/
theorem needMore_only_on_empty_peek (b : List Nat) (s : MultiSocketType) (env : RecvEnv)
    (hb : s.m_buffer = []) :
    (analyzeHandshake b = Status.needMore ↔ b = []) ∧
    (env.ec.failed = false →
      ((s.detectHandshake env).2.m_status = Status.needMore ↔
        s.m_next_layer.rx.take (min 5 env.arrived) = []) ∧
      ((s.detectHandshake env).1.failed = true ↔
        s.m_next_layer.rx.take (min 5 env.arrived) = []) ∧
      ((s.detectHandshake env).1.failed = true →
        (s.detectHandshake env).1 = ErrorCode.invalid_argument)) ∧
    (env.ec.failed = true →
      (s.detectHandshake env).1 = env.ec ∧
      (s.detectHandshake env).2.m_status = s.m_status) := by
  refine ⟨analyzeHandshake_needMore_iff b, ?_, ?_⟩
  · intro hf
    have hec : env.ec = ErrorCode.success := by
      cases h : env.ec <;> simp_all [ErrorCode.failed]
    have hn := analyzeHandshake_needMore_iff (s.m_next_layer.rx.take (min 5 env.arrived))
    by_cases hz : analyzeHandshake (s.m_next_layer.rx.take (min 5 env.arrived)) = Status.needMore
    · have hz2 := hn.1 hz
      have h0 : analyzeHandshake [] = Status.needMore := rfl
      simp [detectHandshake, StreamSocket.receive_peek, hb, hec, ErrorCode.failed,
        autoDetectBytes, hz2, h0]
    · have hz2 : ¬ s.m_next_layer.rx.take (min 5 env.arrived) = [] := fun h => hz (hn.2 h)
      simp [detectHandshake, StreamSocket.receive_peek, hb, hec, ErrorCode.failed,
        autoDetectBytes, hz, hz2]
  · intro hf
    simp [detectHandshake, StreamSocket.receive_peek, hf]

/-- A peek that returns no byte and no error on a server stream with only
`enableServerSsl` set: the detection fails with `invalid_argument`. -/
theorem needMore_only_on_empty_peek_witness :
    (new (fresh_transport []) enable_tls_only).m_buffer = [] ∧
    (arrived 0).ec.failed = false ∧
    ((new (fresh_transport []) enable_tls_only).detectHandshake (arrived 0)).1 =
      ErrorCode.invalid_argument ∧
    ((new (fresh_transport GET_request) enable_tls_only).detectHandshake (arrived 1)).1.failed
      ≠ true := by
  refine ⟨rfl, rfl, ?_, ?_⟩
  · exact ((needMore_only_on_empty_peek [] (new (fresh_transport []) enable_tls_only)
      (arrived 0) rfl).2.1 rfl).2.2 (by decide)
  · intro h
    have h2 := ((needMore_only_on_empty_peek [] (new (fresh_transport GET_request)
      enable_tls_only) (arrived 1) rfl).2.1 rfl).2.1.1 h
    exact absurd h2 (by decide)

theorem detectHandshake_ok (s : MultiSocketType) (env : RecvEnv) (hb : s.m_buffer = [])
    (hf : env.ec.failed = false) :
    s.detectHandshake env =
      ((if analyzeHandshake (s.m_next_layer.rx.take (min 5 env.arrived)) = Status.needMore then
          ErrorCode.invalid_argument else ErrorCode.success),
        { s with
          m_next_layer :=
            { s.m_next_layer with calls := s.m_next_layer.calls ++ [SocketCall.receive_peek 5] },
          m_status := analyzeHandshake (s.m_next_layer.rx.take (min 5 env.arrived)),
          m_buffer := [] }) := by
  have hec : env.ec = ErrorCode.success := by
    cases h : env.ec <;> simp_all [ErrorCode.failed]
  simp only [detectHandshake, StreamSocket.receive_peek, hb, hf, hec, autoDetectBytes]
  simp only [ErrorCode.failed, Bool.not_false, if_true, Bool.false_eq_true, if_false,
    List.nil_append, List.drop_length]
  split_ifs <;> rfl

theorem detectHandshake_err (s : MultiSocketType) (env : RecvEnv)
    (hf : env.ec.failed = true) :
    s.detectHandshake env =
      (env.ec,
        { s with
          m_next_layer :=
            { s.m_next_layer with calls := s.m_next_layer.calls ++ [SocketCall.receive_peek 5] },
          m_buffer := s.m_buffer ++ [] }) := by
  simp [detectHandshake, StreamSocket.receive_peek, hf, autoDetectBytes]


theorem detectHandshakeAsync_err (s : MultiSocketType) (peek : RecvEnv) (tls : SslEnv)
    (hf : peek.ec.failed = true) :
    s.detectHandshakeAsync peek tls =
      ([],
        { s with
          m_next_layer :=
            { s.m_next_layer with calls := s.m_next_layer.calls ++ [SocketCall.receive_peek 5] },
          m_buffer := s.m_buffer ++ [] }) := by
  simp [detectHandshakeAsync, onDetectRead, StreamSocket.receive_peek, hf, autoDetectBytes]

theorem detectHandshakeAsync_ok (s : MultiSocketType) (peek : RecvEnv) (tls : SslEnv)
    (hb : s.m_buffer = []) (hf : peek.ec.failed = false) :
    s.detectHandshakeAsync peek tls =
      (if analyzeHandshake (s.m_next_layer.rx.take (min 5 peek.arrived)) = Status.needMore then
        ([HandlerUse.post ErrorCode.invalid_argument],
          { s with
            m_next_layer :=
              { s.m_next_layer with
                calls := s.m_next_layer.calls ++ [SocketCall.receive_peek 5] },
            m_status := analyzeHandshake (s.m_next_layer.rx.take (min 5 peek.arrived)),
            m_buffer := [] })
      else if (calcDetectAction
          { s with
            m_next_layer :=
              { s.m_next_layer with
                calls := s.m_next_layer.calls ++ [SocketCall.receive_peek 5] },
            m_status := analyzeHandshake (s.m_next_layer.rx.take (min 5 peek.arrived)),
            m_buffer := [] }).2.failed then
        ([HandlerUse.post (calcDetectAction
            { s with
              m_next_layer :=
                { s.m_next_layer with
                  calls := s.m_next_layer.calls ++ [SocketCall.receive_peek 5] },
              m_status := analyzeHandshake (s.m_next_layer.rx.take (min 5 peek.arrived)),
              m_buffer := [] }).2],
          { s with
            m_next_layer :=
              { s.m_next_layer with
                calls := s.m_next_layer.calls ++ [SocketCall.receive_peek 5] },
            m_status := analyzeHandshake (s.m_next_layer.rx.take (min 5 peek.arrived)),
            m_buffer := [] })
      else
        match (calcDetectAction
          { s with
            m_next_layer :=
              { s.m_next_layer with
                calls := s.m_next_layer.calls ++ [SocketCall.receive_peek 5] },
            m_status := analyzeHandshake (s.m_next_layer.rx.take (min 5 peek.arrived)),
            m_buffer := [] }).1 with
        | Action.actionSsl =>
          handshakeSslAsync
            { s with
              m_next_layer :=
                { s.m_next_layer with
                  calls := s.m_next_layer.calls ++ [SocketCall.receive_peek 5] },
              m_status := analyzeHandshake (s.m_next_layer.rx.take (min 5 peek.arrived)),
              m_buffer := [] } tls
        | _ =>
          handshakePlainAsync
            { s with
              m_next_layer :=
                { s.m_next_layer with
                  calls := s.m_next_layer.calls ++ [SocketCall.receive_peek 5] },
              m_status := analyzeHandshake (s.m_next_layer.rx.take (min 5 peek.arrived)),
              m_buffer := [] }) := by
  have hec : peek.ec = ErrorCode.success := by
    cases h : peek.ec <;> simp_all [ErrorCode.failed]
  have hia : ErrorCode.invalid_argument.failed = true := rfl
  have hsu : ErrorCode.success.failed = false := rfl
  by_cases hn : analyzeHandshake (s.m_next_layer.rx.take (min 5 peek.arrived)) = Status.needMore
  · have hz := (analyzeHandshake_needMore_iff _).1 hn
    have h0 : analyzeHandshake [] = Status.needMore := rfl
    simp [detectHandshakeAsync, onDetectRead, StreamSocket.receive_peek, hb, hec, hsu,
      autoDetectBytes, hia, hz, h0]
  · simp only [detectHandshakeAsync, onDetectRead, StreamSocket.receive_peek, hb, hec, hsu,
      autoDetectBytes, hia, Bool.not_false, if_true, Bool.false_eq_true, if_false,
      List.nil_append, List.drop_length, ne_eq, hn, not_false_eq_true]
    generalize ({ s with
        m_next_layer :=
          { s.m_next_layer with calls := s.m_next_layer.calls ++ [SocketCall.receive_peek 5] },
        m_status := analyzeHandshake (s.m_next_layer.rx.take (min 5 peek.arrived)),
        m_buffer := [] } : MultiSocketType) = S3
    rcases hcd : S3.calcDetectAction with ⟨a, e⟩
    cases a <;> cases he : e.failed <;> simp [he]


theorem calcDetectAction_congr (s u : MultiSocketType) (h1 : s.m_status = u.m_status)
    (h2 : s.m_options = u.m_options) : s.calcDetectAction = u.calcDetectAction := by
  simp only [calcDetectAction, h1, h2]

theorem calcDetectAction_fail (s : MultiSocketType)
    (h : (s.calcDetectAction).1 = Action.actionFail) :
    (s.calcDetectAction).2 = ErrorCode.invalid_argument := by
  revert h
  simp only [calcDetectAction, failedHandshake]
  split_ifs <;> simp

theorem calcDetectAction_not_fail (s : MultiSocketType)
    (h : (s.calcDetectAction).1 ≠ Action.actionFail) :
    (s.calcDetectAction).2 = ErrorCode.success := by
  revert h
  simp only [calcDetectAction, failedHandshake]
  split_ifs <;> simp

/-- C21, the code on every input. Started on the same object with an empty
buffer, `handshake` and `async_handshake` agree (the handler is called once,
with the code `handshake` returns, and `m_status` and `m_stream` end equal)
whenever no peek is made, and after a peek without error that returned no byte
or whose post-peek decision is not `actionFail`. They disagree in the two
other cases. When the post-peek decision is `actionFail`, `handshake` returns
success with the plain stream installed while `async_handshake` posts
`invalid_argument` and installs nothing. When the peek reports an error,
`handshake` returns that error while `async_handshake` never calls the
handler. -/
theorem handshake_sync_async (s : MultiSocketType) (role : handshake_type) (peek : RecvEnv)
    (tls : SslEnv) (hb : s.m_buffer = []) :
    (((s.calcAction role).1 ≠ Action.actionDetect ∨
        (peek.ec.failed = false ∧
          (s.detect_classification peek = Status.needMore ∨
            s.detect_decision peek ≠ Action.actionFail))) →
      handler_codes (s.async_handshake role peek tls).1 tls = [(s.handshake role peek tls).1] ∧
      (s.async_handshake role peek tls).2.m_status = (s.handshake role peek tls).2.m_status ∧
      (s.async_handshake role peek tls).2.m_stream = (s.handshake role peek tls).2.m_stream) ∧
    ((s.calcAction role).1 = Action.actionDetect → peek.ec.failed = false →
      s.detect_classification peek ≠ Status.needMore →
      s.detect_decision peek = Action.actionFail →
      (s.handshake role peek tls).1 = ErrorCode.success ∧
      (s.handshake role peek tls).2.m_status = Status.plain ∧
      (s.handshake role peek tls).2.m_stream = some SocketWrapper.next_layer ∧
      (s.async_handshake role peek tls).1 = [HandlerUse.post ErrorCode.invalid_argument] ∧
      (s.async_handshake role peek tls).2.m_status = s.detect_classification peek ∧
      (s.async_handshake role peek tls).2.m_stream = s.m_stream) ∧
    ((s.calcAction role).1 = Action.actionDetect → peek.ec.failed = true →
      (s.handshake role peek tls).1 = peek.ec ∧
      (s.async_handshake role peek tls).1 = [] ∧
      (s.async_handshake role peek tls).2.m_status = (s.handshake role peek tls).2.m_status ∧
      (s.async_handshake role peek tls).2.m_stream = (s.handshake role peek tls).2.m_stream) := by
  have hd : ({ s with m_role := role } : MultiSocketType).m_buffer = [] := hb
  have hia : ErrorCode.invalid_argument.failed = true := rfl
  have hsu : ErrorCode.success.failed = false := rfl
  refine ⟨?_, ?_, ?_⟩
  · intro h
    cases ha : (s.calcAction role).1
    · rcases h with h | ⟨hf, h⟩
      · exact absurd ha h
      · have h1 := detectHandshake_ok { s with m_role := role } peek hd hf
        have h2 := detectHandshakeAsync_ok { s with m_role := role } peek tls hd hf
        have hcl : s.detect_classification peek =
            analyzeHandshake (s.m_next_layer.rx.take (min 5 peek.arrived)) := by
          simp [detect_classification, StreamSocket.receive_peek, hf, autoDetectBytes]
        by_cases hn : analyzeHandshake (s.m_next_layer.rx.take (min 5 peek.arrived)) =
            Status.needMore
        · simp only [handshake, async_handshake, calcAction_snd, ha, h1, h2, hn, if_true, hia,
            Bool.not_true, Bool.false_eq_true, if_false]
          simp [handler_codes]
        · have hdec : s.detect_decision peek ≠ Action.actionFail := by
            rcases h with h | h
            · rw [hcl] at h
              exact absurd h hn
            · exact h
          have e := calcDetectAction_congr
            { s with
              m_role := role,
              m_next_layer :=
                { s.m_next_layer with
                  calls := s.m_next_layer.calls ++ [SocketCall.receive_peek 5] },
              m_status := analyzeHandshake (s.m_next_layer.rx.take (min 5 peek.arrived)),
              m_buffer := [] }
            { s with m_status := s.detect_classification peek } (by rw [hcl]) rfl
          have hfst : (calcDetectAction
              ({ s with m_status := s.detect_classification peek } : MultiSocketType)).1 ≠
              Action.actionFail := hdec
          rw [← e] at hfst
          have hsnd := calcDetectAction_not_fail _ hfst
          simp only [handshake, async_handshake, calcAction_snd, ha, h1, h2, hn, if_false, hsu,
            Bool.not_false, if_true, hsnd]
          revert hfst
          generalize (calcDetectAction
            { s with
              m_role := role,
              m_next_layer :=
                { s.m_next_layer with
                  calls := s.m_next_layer.calls ++ [SocketCall.receive_peek 5] },
              m_status := analyzeHandshake (s.m_next_layer.rx.take (min 5 peek.arrived)),
              m_buffer := [] }).1 = a
          intro hfst
          cases a <;>
            simp [handler_codes, handshakePlain, handshakePlainAsync, handshakeSsl,
              handshakeSslAsync, createPlainStreamSocket, createSslStreamSocket,
              ssl_stream_type.handshake] at hfst ⊢
    · simp [handshake, async_handshake, ha, handler_codes, handshakePlain, handshakePlainAsync,
        createPlainStreamSocket]
    · simp [handshake, async_handshake, ha, handler_codes, handshakeSsl, handshakeSslAsync,
        createSslStreamSocket, ssl_stream_type.handshake]
    · simp [handshake, async_handshake, ha, handler_codes, handshakePlain, handshakePlainAsync,
        createPlainStreamSocket]
  · intro ha hf hcn hdec
    have h1 := detectHandshake_ok { s with m_role := role } peek hd hf
    have h2 := detectHandshakeAsync_ok { s with m_role := role } peek tls hd hf
    have hcl : s.detect_classification peek =
        analyzeHandshake (s.m_next_layer.rx.take (min 5 peek.arrived)) := by
      simp [detect_classification, StreamSocket.receive_peek, hf, autoDetectBytes]
    rw [hcl] at hcn
    have hcd : (calcDetectAction
        { s with
          m_role := role,
          m_next_layer :=
            { s.m_next_layer with calls := s.m_next_layer.calls ++ [SocketCall.receive_peek 5] },
          m_status := analyzeHandshake (s.m_next_layer.rx.take (min 5 peek.arrived)),
          m_buffer := [] }) = (Action.actionFail, ErrorCode.invalid_argument) := by
      have e := calcDetectAction_congr
        { s with
          m_role := role,
          m_next_layer :=
            { s.m_next_layer with calls := s.m_next_layer.calls ++ [SocketCall.receive_peek 5] },
          m_status := analyzeHandshake (s.m_next_layer.rx.take (min 5 peek.arrived)),
          m_buffer := [] }
        { s with m_status := s.detect_classification peek } (by rw [hcl]) rfl
      have hfst : (calcDetectAction
          ({ s with m_status := s.detect_classification peek } : MultiSocketType)).1 =
          Action.actionFail := hdec
      rw [← e] at hfst
      exact Prod.ext hfst (calcDetectAction_fail _ hfst)
    simp only [handshake, async_handshake, calcAction_snd, ha, h1, h2, hcn, if_false, hsu,
      Bool.not_false, if_true, hcd, hia, hcl]
    simp [handshakePlain, createPlainStreamSocket]
  · intro ha hf
    have h1 := detectHandshake_err { s with m_role := role } peek hf
    have h2 := detectHandshakeAsync_err { s with m_role := role } peek tls hf
    simp only [handshake, async_handshake, calcAction_snd, ha, h1, h2, hf]
    simp


/-- The two inputs on which the handshakes disagree. Role server with
`requireServerSsl` and `requireServerProxy` set and the peer sending
`"GET / HTTP/1.1\r\n"`: success and a plain stream against a posted
`invalid_argument` and no stream. Role server with only `enableServerSsl` set
and a peek that fails with error 104: that error against a handler never
called. -/
theorem handshake_sync_async_witness :
    (new (fresh_transport GET_request) require_tls_and_proxy).m_buffer = [] ∧
    (((new (fresh_transport GET_request) require_tls_and_proxy).handshake handshake_type.server
        (arrived 16) (engine_says ErrorCode.success)).1 = ErrorCode.success ∧
      ((new (fresh_transport GET_request) require_tls_and_proxy).handshake handshake_type.server
        (arrived 16) (engine_says ErrorCode.success)).2.m_status = Status.plain ∧
      ((new (fresh_transport GET_request) require_tls_and_proxy).handshake handshake_type.server
        (arrived 16) (engine_says ErrorCode.success)).2.m_stream =
          some SocketWrapper.next_layer ∧
      ((new (fresh_transport GET_request) require_tls_and_proxy).async_handshake
        handshake_type.server (arrived 16) (engine_says ErrorCode.success)).1 =
          [HandlerUse.post ErrorCode.invalid_argument] ∧
      ((new (fresh_transport GET_request) require_tls_and_proxy).async_handshake
        handshake_type.server (arrived 16) (engine_says ErrorCode.success)).2.m_status =
          Status.plain ∧
      ((new (fresh_transport GET_request) require_tls_and_proxy).async_handshake
        handshake_type.server (arrived 16) (engine_says ErrorCode.success)).2.m_stream =
          none) ∧
    (((new (fresh_transport GET_request) enable_tls_only).handshake handshake_type.server
        { ec := ErrorCode.other 104, arrived := 0 } (engine_says ErrorCode.success)).1 =
          ErrorCode.other 104 ∧
      ((new (fresh_transport GET_request) enable_tls_only).async_handshake
        handshake_type.server { ec := ErrorCode.other 104, arrived := 0 }
        (engine_says ErrorCode.success)).1 = []) :=
  ⟨rfl,
   (handshake_sync_async (new (fresh_transport GET_request) require_tls_and_proxy)
      handshake_type.server (arrived 16) (engine_says ErrorCode.success) rfl).2.1
      rfl rfl (by decide) (by decide),
   ((handshake_sync_async (new (fresh_transport GET_request) enable_tls_only)
      handshake_type.server { ec := ErrorCode.other 104, arrived := 0 }
      (engine_says ErrorCode.success) rfl).2.2 rfl rfl).1,
   ((handshake_sync_async (new (fresh_transport GET_request) enable_tls_only)
      handshake_type.server { ec := ErrorCode.other 104, arrived := 0 }
      (engine_says ErrorCode.success) rfl).2.2 rfl rfl).2.1⟩

theorem detectHandshake_failed_status_cases (s : MultiSocketType) (env : RecvEnv)
    (hf : (s.detectHandshake env).1.failed = true) :
    (s.detectHandshake env).2.m_status = s.m_status ∨
      (s.detectHandshake env).2.m_status = Status.needMore := by
  revert hf
  unfold detectHandshake StreamSocket.receive_peek
  simp only []
  split_ifs <;> simp_all [ErrorCode.failed]

theorem handshake_keeps_session (s : MultiSocketType) (role : handshake_type) (peek : RecvEnv)
    (tls : SslEnv)
    (h1 : s.m_status = Status.ssl → s.m_ssl_stream.isSome = true)
    (h2 : s.m_stream = some SocketWrapper.ssl_stream → s.m_ssl_stream.isSome = true) :
    ((s.handshake role peek tls).2.m_status = Status.ssl →
        (s.handshake role peek tls).2.m_ssl_stream.isSome = true) ∧
      ((s.handshake role peek tls).2.m_stream = some SocketWrapper.ssl_stream →
        (s.handshake role peek tls).2.m_ssl_stream.isSome = true) := by
  have hs3 := handshakeSsl_result { s with m_role := role } tls
  have hs4 := handshakeSsl_result
    (({ s with m_role := role } : MultiSocketType).detectHandshake peek).2 tls
  have hfr := detectHandshake_frame { s with m_role := role } peek
  unfold handshake
  simp only [calcAction_snd]
  split
  · rw [hs3.2.2.1]
    simp
  · split_ifs with hf
    · split
      · rw [hs4.2.2.1]
        simp
      · simp [handshakePlain, createPlainStreamSocket]
    · have hf2 : (({ s with m_role := role } : MultiSocketType).detectHandshake
          peek).1.failed = true := by simpa using hf
      rw [hfr.2.2.2.1, hfr.2.2.2.2.1]
      refine ⟨fun h => ?_, h2⟩
      rcases detectHandshake_failed_status_cases { s with m_role := role } peek hf2 with e | e
      · rw [e] at h
        exact h1 h
      · rw [e] at h
        exact absurd h (by decide)
  · simp [handshakePlain, createPlainStreamSocket]

theorem step_keeps_session (s : MultiSocketType) (st : Step)
    (hst : st.is_async_handshake = false)
    (h1 : s.m_status = Status.ssl → s.m_ssl_stream.isSome = true)
    (h2 : s.m_stream = some SocketWrapper.ssl_stream → s.m_ssl_stream.isSome = true) :
    (∀ f, s.step st = Except.error f → f ≠ Fault.null_dereference) ∧
      (∀ s1, s.step st = Except.ok s1 →
        (s1.m_status = Status.ssl → s1.m_ssl_stream.isSome = true) ∧
        (s1.m_stream = some SocketWrapper.ssl_stream → s1.m_ssl_stream.isSome = true)) := by
  cases st with
  | handshake role peek tls =>
    refine ⟨fun f h => by simp [step] at h, fun s1 h => ?_⟩
    simp only [step, Except.ok.injEq] at h
    subst h
    exact handshake_keeps_session s role peek tls h1 h2
  | async_handshake role peek tls => simp [Step.is_async_handshake] at hst
  | read_some size env tls =>
    simp only [step, read_some, stream]
    by_cases hb : s.m_buffer.length > 0
    · simp only [hb, if_true, Except.map]
      refine ⟨fun f h => by simp at h, fun s1 h => ?_⟩
      simp only [Except.ok.injEq] at h
      subst h
      exact ⟨h1, h2⟩
    · simp only [hb, if_false]
      rcases hms : s.m_stream with _ | w
      · simp [Except.map]
      · cases w
        · simp only [Except.map]
          refine ⟨fun f h => by simp at h, fun s1 h => ?_⟩
          simp only [Except.ok.injEq] at h
          subst h
          exact ⟨h1, fun h => by simp at h⟩
        · have hx := h2 hms
          rcases hss : s.m_ssl_stream with _ | x
          · simp [hss] at hx
          · simp only [Except.map]
            refine ⟨fun f h => by simp at h, fun s1 h => ?_⟩
            simp only [Except.ok.injEq] at h
            subst h
            simp
  | write_some data env tls =>
    simp only [step, write_some, stream]
    rcases hms : s.m_stream with _ | w
    · simp [Except.map]
    · cases w
      · simp only [Except.map]
        refine ⟨fun f h => by simp at h, fun s1 h => ?_⟩
        simp only [Except.ok.injEq] at h
        subst h
        exact ⟨h1, fun h => by simp at h⟩
      · have hx := h2 hms
        rcases hss : s.m_ssl_stream with _ | x
        · simp [hss] at hx
        · simp only [Except.map]
          refine ⟨fun f h => by simp at h, fun s1 h => ?_⟩
          simp only [Except.ok.injEq] at h
          subst h
          simp
  | shutdown ec tls =>
    simp only [step, shutdown]
    by_cases hs : s.m_status = Status.ssl
    · have hx := h1 hs
      rcases hss : s.m_ssl_stream with _ | x
      · simp [hss] at hx
      · simp only [hs, if_true, Except.map]
        refine ⟨fun f h => by simp at h, fun s1 h => ?_⟩
        simp only [Except.ok.injEq] at h
        subst h
        simp
    · simp only [hs, if_false, Except.map]
      refine ⟨fun f h => by simp at h, fun s1 h => ?_⟩
      simp only [Except.ok.injEq] at h
      subst h
      exact ⟨h1, h2⟩
  | async_shutdown ec tls =>
    simp only [step, async_shutdown]
    by_cases hs : s.m_status = Status.ssl
    · have hx := h1 hs
      rcases hss : s.m_ssl_stream with _ | x
      · simp [hss] at hx
      · simp only [hs, if_true, Except.map]
        refine ⟨fun f h => by simp at h, fun s1 h => ?_⟩
        simp only [Except.ok.injEq] at h
        subst h
        simp
    · simp only [hs, if_false, Except.map]
      refine ⟨fun f h => by simp at h, fun s1 h => ?_⟩
      simp only [Except.ok.injEq] at h
      subst h
      exact ⟨h1, h2⟩


theorem run_keeps_session (steps : List Step) :
    ∀ s : MultiSocketType, (∀ st ∈ steps, st.is_async_handshake = false) →
      (s.m_status = Status.ssl → s.m_ssl_stream.isSome = true) →
      (s.m_stream = some SocketWrapper.ssl_stream → s.m_ssl_stream.isSome = true) →
      session_safe (s.run steps) = true := by
  induction steps with
  | nil =>
    intro s _ h1 _
    simp only [run, session_safe, ssl_status_has_session]
    by_cases hs : s.m_status = Status.ssl
    · simp [h1 hs]
    · simp [hs]
  | cons st rest ih =>
    intro s hall h1 h2
    have hk := step_keeps_session s st (hall st (List.mem_cons_self _ _)) h1 h2
    simp only [run]
    rcases hst : s.step st with f | s1
    · simp only [session_safe]
      simpa using hk.1 f hst
    · have hk2 := hk.2 s1 hst
      exact ih s1 (fun x hx => hall x (List.mem_cons_of_mem _ hx)) hk2.1 hk2.2

/-- C22, the code on sequences of calls. Along every sequence of `handshake`,
`read_some`, `write_some`, `shutdown` and `async_shutdown` calls on a new object
the relation holds: `m_status` is `ssl` only with the TLS stream created, and
no call dereferences a null pointer. An `async_handshake` breaks it: with
`requireServerProxy` set and a peer that sends a TLS ClientHello, `onDetectRead`
leaves `m_status` at `ssl` from the classification, the post-peek decision
fails, no TLS stream is created, and the next `shutdown` or `async_shutdown`
dereferences the null `m_ssl_stream`. -/
theorem ssl_status_without_session (t : StreamSocket) (options : Options) (steps : List Step)
    (tls : SslEnv) (hsync : ∀ st ∈ steps, st.is_async_handshake = false) :
    session_safe ((new t options).run steps) = true ∧
    ((new (fresh_transport ClientHello) require_proxy_only).async_handshake
        handshake_type.server (arrived 5) tls).1 =
      [HandlerUse.post ErrorCode.invalid_argument] ∧
    ((new (fresh_transport ClientHello) require_proxy_only).async_handshake
        handshake_type.server (arrived 5) tls).2.m_status = Status.ssl ∧
    ((new (fresh_transport ClientHello) require_proxy_only).async_handshake
        handshake_type.server (arrived 5) tls).2.m_ssl_stream = none ∧
    session_safe ((new (fresh_transport ClientHello) require_proxy_only).run
        [Step.async_handshake handshake_type.server (arrived 5) tls]) = false ∧
    (new (fresh_transport ClientHello) require_proxy_only).run
        [Step.async_handshake handshake_type.server (arrived 5) tls,
         Step.shutdown ErrorCode.success tls] = Except.error Fault.null_dereference ∧
    (new (fresh_transport ClientHello) require_proxy_only).run
        [Step.async_handshake handshake_type.server (arrived 5) tls,
         Step.async_shutdown ErrorCode.success tls] = Except.error Fault.null_dereference :=
  ⟨run_keeps_session steps (new t options) hsync (fun h => by simp [new] at h)
      (fun h => by simp [new] at h), rfl, rfl, rfl, rfl, rfl, rfl⟩

/-- A new server stream with only `requireServerSsl` set, taken through a
synchronous handshake that the engine accepts, a read, a write and two
shutdowns: the relation holds at the end. -/
theorem ssl_status_without_session_witness :
    (∀ st ∈ [Step.handshake handshake_type.server (arrived 5) (engine_says ErrorCode.success),
        Step.read_some 16 (arrived 5) (engine_says ErrorCode.success),
        Step.write_some [72, 73] { ec := ErrorCode.success, accepted := 2 }
          (engine_says ErrorCode.success),
        Step.shutdown ErrorCode.success (engine_says ErrorCode.success),
        Step.async_shutdown ErrorCode.success (engine_says ErrorCode.success)],
      st.is_async_handshake = false) ∧
    session_safe ((new (fresh_transport ClientHello) require_tls_only).run
      [Step.handshake handshake_type.server (arrived 5) (engine_says ErrorCode.success),
        Step.read_some 16 (arrived 5) (engine_says ErrorCode.success),
        Step.write_some [72, 73] { ec := ErrorCode.success, accepted := 2 }
          (engine_says ErrorCode.success),
        Step.shutdown ErrorCode.success (engine_says ErrorCode.success),
        Step.async_shutdown ErrorCode.success (engine_says ErrorCode.success)]) = true :=
  ⟨by decide,
   (ssl_status_without_session (fresh_transport ClientHello) require_tls_only
      [Step.handshake handshake_type.server (arrived 5) (engine_says ErrorCode.success),
        Step.read_some 16 (arrived 5) (engine_says ErrorCode.success),
        Step.write_some [72, 73] { ec := ErrorCode.success, accepted := 2 }
          (engine_says ErrorCode.success),
        Step.shutdown ErrorCode.success (engine_says ErrorCode.success),
        Step.async_shutdown ErrorCode.success (engine_says ErrorCode.success)]
      (engine_says ErrorCode.success) (by decide)).1⟩

theorem detect_classification_ok (s : MultiSocketType) (peek : RecvEnv)
    (hf : peek.ec.failed = false) :
    s.detect_classification peek =
      analyzeHandshake (s.m_next_layer.rx.take (min 5 peek.arrived)) := by
  simp [detect_classification, StreamSocket.receive_peek, hf, autoDetectBytes]

theorem handshake_on_tls_path (s : MultiSocketType) (role : handshake_type) (peek : RecvEnv)
    (tls : SslEnv) (hb : s.m_buffer = [])
    (hp : (s.calcAction role).1 = Action.actionSsl ∨
      ((s.calcAction role).1 = Action.actionDetect ∧ peek.ec.failed = false ∧
        s.detect_classification peek ≠ Status.needMore ∧
        s.detect_decision peek = Action.actionSsl)) :
    (s.handshake role peek tls).1 = tls.ec ∧
      (s.handshake role peek tls).2.m_stream = some SocketWrapper.ssl_stream ∧
      (s.handshake role peek tls).2.m_ssl_stream = some { calls := [SslCall.handshake role] } ∧
      (s.handshake role peek tls).2.m_buffer = [] := by
  have hd : ({ s with m_role := role } : MultiSocketType).m_buffer = [] := hb
  have hsu : ErrorCode.success.failed = false := rfl
  refine ⟨?_, ?_, ?_, handshake_buffer_empty s role peek tls hb⟩
  all_goals
    rcases hp with ha | ⟨ha, hf, hcn, hdec⟩
    · simp [handshake, ha, calcAction_snd, handshakeSsl, createSslStreamSocket,
        ssl_stream_type.handshake]
    · have h1 := detectHandshake_ok { s with m_role := role } peek hd hf
      have hcl := detect_classification_ok s peek hf
      rw [hcl] at hcn
      have e := calcDetectAction_congr
        { s with
          m_role := role,
          m_next_layer :=
            { s.m_next_layer with calls := s.m_next_layer.calls ++ [SocketCall.receive_peek 5] },
          m_status := analyzeHandshake (s.m_next_layer.rx.take (min 5 peek.arrived)),
          m_buffer := [] }
        { s with m_status := s.detect_classification peek } (by rw [hcl]) rfl
      have hfst : (calcDetectAction
          ({ s with m_status := s.detect_classification peek } : MultiSocketType)).1 =
          Action.actionSsl := hdec
      rw [← e] at hfst
      simp only [handshake, calcAction_snd, ha, h1, hcn, if_false, hsu, Bool.not_false, if_true,
        hfst]
      simp [handshakeSsl, createSslStreamSocket, ssl_stream_type.handshake]

theorem handshake_on_detect_error (s : MultiSocketType) (role : handshake_type)
    (peek : RecvEnv) (tls : SslEnv) (hs : s.m_stream = none) (hb : s.m_buffer = [])
    (ha : (s.calcAction role).1 = Action.actionDetect) :
    (peek.ec.failed = true →
      (s.handshake role peek tls).1 = peek.ec ∧
      (s.handshake role peek tls).2.m_stream = none ∧
      (s.handshake role peek tls).2.m_buffer = []) ∧
    (peek.ec.failed = false → s.detect_classification peek = Status.needMore →
      (s.handshake role peek tls).1 = ErrorCode.invalid_argument ∧
      (s.handshake role peek tls).2.m_stream = none ∧
      (s.handshake role peek tls).2.m_buffer = []) := by
  have hd : ({ s with m_role := role } : MultiSocketType).m_buffer = [] := hb
  have hia : ErrorCode.invalid_argument.failed = true := rfl
  constructor
  · intro hf
    have h1 := detectHandshake_err { s with m_role := role } peek hf
    refine ⟨?_, ?_, handshake_buffer_empty s role peek tls hb⟩
    · simp only [handshake, calcAction_snd, ha, h1, hf]
      simp
    · simp only [handshake, calcAction_snd, ha, h1, hf]
      simp [hs]
  · intro hf hn
    have h1 := detectHandshake_ok { s with m_role := role } peek hd hf
    rw [detect_classification_ok s peek hf] at hn
    refine ⟨?_, ?_, handshake_buffer_empty s role peek tls hb⟩
    · simp only [handshake, calcAction_snd, ha, h1, hn, if_true, hia]
      simp
    · simp only [handshake, calcAction_snd, ha, h1, hn, if_true, hia]
      simp [hs]

theorem handshake_error_cause (s : MultiSocketType) (role : handshake_type)
    (peek : RecvEnv) (tls : SslEnv) (hb : s.m_buffer = [])
    (herr : (s.handshake role peek tls).1.failed = true) :
    (((s.calcAction role).1 = Action.actionSsl ∨
        ((s.calcAction role).1 = Action.actionDetect ∧ peek.ec.failed = false ∧
          s.detect_classification peek ≠ Status.needMore ∧
          s.detect_decision peek = Action.actionSsl)) ∧ tls.ec.failed = true) ∨
    ((s.calcAction role).1 = Action.actionDetect ∧ peek.ec.failed = true) ∨
    ((s.calcAction role).1 = Action.actionDetect ∧ peek.ec.failed = false ∧
      s.detect_classification peek = Status.needMore) := by
  have hd : ({ s with m_role := role } : MultiSocketType).m_buffer = [] := hb
  have hsu : ErrorCode.success.failed = false := rfl
  cases ha : (s.calcAction role).1
  · -- detect
    cases hf : peek.ec.failed
    · by_cases hn : s.detect_classification peek = Status.needMore
      · exact Or.inr (Or.inr ⟨rfl, rfl, hn⟩)
      · by_cases hdec : s.detect_decision peek = Action.actionSsl
        · have hp := handshake_on_tls_path s role peek tls hb (Or.inr ⟨ha, hf, hn, hdec⟩)
          rw [hp.1] at herr
          exact Or.inl ⟨Or.inr ⟨rfl, rfl, hn, hdec⟩, herr⟩
        · exfalso
          have h1 := detectHandshake_ok { s with m_role := role } peek hd hf
          have hcl := detect_classification_ok s peek hf
          have hn2 := hn
          rw [hcl] at hn2
          have e := calcDetectAction_congr
            { s with
              m_role := role,
              m_next_layer :=
                { s.m_next_layer with
                  calls := s.m_next_layer.calls ++ [SocketCall.receive_peek 5] },
              m_status := analyzeHandshake (s.m_next_layer.rx.take (min 5 peek.arrived)),
              m_buffer := [] }
            { s with m_status := s.detect_classification peek } (by rw [hcl]) rfl
          have hfst : (calcDetectAction
              ({ s with m_status := s.detect_classification peek } : MultiSocketType)).1 ≠
              Action.actionSsl := hdec
          rw [← e] at hfst
          revert herr
          simp only [handshake, calcAction_snd, ha, h1, hn2, if_false, hsu, Bool.not_false,
            if_true]
          revert hfst
          generalize (calcDetectAction
            { s with
              m_role := role,
              m_next_layer :=
                { s.m_next_layer with
                  calls := s.m_next_layer.calls ++ [SocketCall.receive_peek 5] },
              m_status := analyzeHandshake (s.m_next_layer.rx.take (min 5 peek.arrived)),
              m_buffer := [] }).1 = a
          intro hfst
          cases a <;> simp [handshakePlain, ErrorCode.failed] at hfst ⊢
    · exact Or.inr (Or.inl ⟨rfl, rfl⟩)
  · exfalso
    revert herr
    simp [handshake, ha, handshakePlain, ErrorCode.failed]
  · have hp := handshake_on_tls_path s role peek tls hb (Or.inl ha)
    rw [hp.1] at herr
    exact Or.inl ⟨Or.inl rfl, herr⟩
  · exfalso
    revert herr
    simp [handshake, ha, handshakePlain, ErrorCode.failed]

/-- C9 (as amended). A handshake on a new stream that returns an error records
no failed state, and what it leaves depends on where the error came from.
When the handshake takes the TLS path, at once or after a peek, it returns the
engine's code and the TLS stream created before the engine's handshake is the
active stream whatever that code is, so also when the engine failed; a later
read or write is passed on to it. When the peek fails, or returns no byte, the
handshake returns the transport's code or `invalid_argument`, no active stream
is set, and a later read or write ends at the fatal assertion of `stream ()`.
A handshake that returns an error is in one of these cases; the inputs whose
post-peek decision is `actionFail` are left aside here. -/
theorem handshake_error_leaves_stream (s : MultiSocketType) (role : handshake_type)
    (peek : RecvEnv) (tls : SslEnv) (size : Nat) (renv : RecvEnv) (rtls : SslEnv)
    (data : List Nat) (wenv : SendEnv) (wtls : SslEnv)
    (hs : s.m_stream = none) (hb : s.m_buffer = []) :
    (((s.calcAction role).1 = Action.actionSsl ∨
        ((s.calcAction role).1 = Action.actionDetect ∧ peek.ec.failed = false ∧
          s.detect_classification peek ≠ Status.needMore ∧
          s.detect_decision peek = Action.actionSsl)) →
      (s.handshake role peek tls).1 = tls.ec ∧
      (s.handshake role peek tls).2.m_stream = some SocketWrapper.ssl_stream ∧
      (s.handshake role peek tls).2.m_ssl_stream = some { calls := [SslCall.handshake role] } ∧
      (s.handshake role peek tls).2.read_some size renv rtls =
        Except.ok
          ({ amount := (ssl_stream_type.read_some { calls := [SslCall.handshake role] }
                (s.handshake role peek tls).2.m_next_layer size rtls).1.length,
             data := (ssl_stream_type.read_some { calls := [SslCall.handshake role] }
                (s.handshake role peek tls).2.m_next_layer size rtls).1,
             ec := (ssl_stream_type.read_some { calls := [SslCall.handshake role] }
                (s.handshake role peek tls).2.m_next_layer size rtls).2.1 },
           { (s.handshake role peek tls).2 with
             m_ssl_stream := some (ssl_stream_type.read_some { calls := [SslCall.handshake role] }
                (s.handshake role peek tls).2.m_next_layer size rtls).2.2.1,
             m_next_layer := (ssl_stream_type.read_some { calls := [SslCall.handshake role] }
                (s.handshake role peek tls).2.m_next_layer size rtls).2.2.2 }) ∧
      (s.handshake role peek tls).2.write_some data wenv wtls =
        Except.ok
          (((ssl_stream_type.write_some { calls := [SslCall.handshake role] }
                (s.handshake role peek tls).2.m_next_layer data wtls).1,
            (ssl_stream_type.write_some { calls := [SslCall.handshake role] }
                (s.handshake role peek tls).2.m_next_layer data wtls).2.1),
           { (s.handshake role peek tls).2 with
             m_ssl_stream := some (ssl_stream_type.write_some { calls := [SslCall.handshake role] }
                (s.handshake role peek tls).2.m_next_layer data wtls).2.2.1,
             m_next_layer := (ssl_stream_type.write_some { calls := [SslCall.handshake role] }
                (s.handshake role peek tls).2.m_next_layer data wtls).2.2.2 })) ∧
    ((s.calcAction role).1 = Action.actionDetect → peek.ec.failed = true →
      (s.handshake role peek tls).1 = peek.ec ∧
      (s.handshake role peek tls).2.m_stream = none ∧
      (s.handshake role peek tls).2.read_some size renv rtls = Except.error Fault.fatal_assert ∧
      (s.handshake role peek tls).2.write_some data wenv wtls =
        Except.error Fault.fatal_assert) ∧
    ((s.calcAction role).1 = Action.actionDetect → peek.ec.failed = false →
      s.detect_classification peek = Status.needMore →
      (s.handshake role peek tls).1 = ErrorCode.invalid_argument ∧
      (s.handshake role peek tls).2.m_stream = none ∧
      (s.handshake role peek tls).2.read_some size renv rtls = Except.error Fault.fatal_assert ∧
      (s.handshake role peek tls).2.write_some data wenv wtls =
        Except.error Fault.fatal_assert) ∧
    ((s.handshake role peek tls).1.failed = true →
      ¬ ((s.calcAction role).1 = Action.actionDetect ∧ peek.ec.failed = false ∧
          s.detect_classification peek ≠ Status.needMore ∧
          s.detect_decision peek = Action.actionFail) →
      (((s.calcAction role).1 = Action.actionSsl ∨
          ((s.calcAction role).1 = Action.actionDetect ∧ peek.ec.failed = false ∧
            s.detect_classification peek ≠ Status.needMore ∧
            s.detect_decision peek = Action.actionSsl)) ∧ tls.ec.failed = true) ∨
      ((s.calcAction role).1 = Action.actionDetect ∧ peek.ec.failed = true) ∨
      ((s.calcAction role).1 = Action.actionDetect ∧ peek.ec.failed = false ∧
        s.detect_classification peek = Status.needMore)) := by
  refine ⟨?_, ?_, ?_, fun herr _ => handshake_error_cause s role peek tls hb herr⟩
  · intro hp
    obtain ⟨h1, h2, h3, h4⟩ := handshake_on_tls_path s role peek tls hb hp
    exact ⟨h1, h2, h3, read_some_ssl _ _ size renv rtls h2 h3 h4,
      write_some_ssl _ _ data wenv wtls h2 h3⟩
  · intro ha hf
    obtain ⟨h1, h2, h3⟩ := (handshake_on_detect_error s role peek tls hs hb ha).1 hf
    exact ⟨h1, h2, read_some_unset _ size renv rtls h2 h3, write_some_unset _ data wenv wtls h2⟩
  · intro ha hf hn
    obtain ⟨h1, h2, h3⟩ := (handshake_on_detect_error s role peek tls hs hb ha).2 hf hn
    exact ⟨h1, h2, read_some_unset _ size renv rtls h2 h3, write_some_unset _ data wenv wtls h2⟩

/-- Two failed server handshakes on `"GET / HTTP/1.1\r\n"`. With only
`requireServerSsl` set and an engine that rejects the handshake, the engine's
code comes back, the TLS stream is the active stream and a read of 16 bytes
returns from the TLS stream. With only `enableServerSsl` set and a peek that
fails with error 7, that code comes back, no stream is set, and a read and a
write end at the fatal assertion. -/
theorem handshake_error_leaves_stream_witness :
    (new (fresh_transport GET_request) require_tls_only).m_stream = none ∧
    (new (fresh_transport GET_request) require_tls_only).m_buffer = [] ∧
    ((new (fresh_transport GET_request) require_tls_only).handshake handshake_type.server
        (arrived 16) (engine_says (ErrorCode.other 1))).1 = ErrorCode.other 1 ∧
    ((new (fresh_transport GET_request) require_tls_only).handshake handshake_type.server
        (arrived 16) (engine_says (ErrorCode.other 1))).2.m_stream =
      some SocketWrapper.ssl_stream ∧
    (((new (fresh_transport GET_request) require_tls_only).handshake handshake_type.server
        (arrived 16) (engine_says (ErrorCode.other 1))).2.read_some 16 (arrived 16)
        (engine_says (ErrorCode.other 1))).map (fun r => (r.1, r.2.m_ssl_stream)) =
      Except.ok
        ({ amount := 0, data := [], ec := ErrorCode.other 1 },
         some { calls := [SslCall.handshake handshake_type.server, SslCall.read_some 16] }) ∧
    ((new (fresh_transport GET_request) enable_tls_only).handshake handshake_type.server
        { ec := ErrorCode.other 7, arrived := 0 } (engine_says ErrorCode.success)).1 =
      ErrorCode.other 7 ∧
    ((new (fresh_transport GET_request) enable_tls_only).handshake handshake_type.server
        { ec := ErrorCode.other 7, arrived := 0 } (engine_says ErrorCode.success)).2.m_stream
      = none ∧
    ((new (fresh_transport GET_request) enable_tls_only).handshake handshake_type.server
        { ec := ErrorCode.other 7, arrived := 0 } (engine_says ErrorCode.success)).2.read_some
        16 (arrived 16) (engine_says ErrorCode.success) = Except.error Fault.fatal_assert ∧
    ((new (fresh_transport GET_request) enable_tls_only).handshake handshake_type.server
        { ec := ErrorCode.other 7, arrived := 0 } (engine_says ErrorCode.success)).2.write_some
        [72, 73, 10] { ec := ErrorCode.success, accepted := 3 } (engine_says ErrorCode.success)
      = Except.error Fault.fatal_assert := by
  have h1 := (handshake_error_leaves_stream (new (fresh_transport GET_request) require_tls_only)
    handshake_type.server (arrived 16) (engine_says (ErrorCode.other 1)) 16 (arrived 16)
    (engine_says (ErrorCode.other 1)) [72, 73, 10] { ec := ErrorCode.success, accepted := 3 }
    (engine_says ErrorCode.success) rfl rfl).1 (Or.inl rfl)
  have h2 := (handshake_error_leaves_stream (new (fresh_transport GET_request) enable_tls_only)
    handshake_type.server { ec := ErrorCode.other 7, arrived := 0 }
    (engine_says ErrorCode.success) 16 (arrived 16) (engine_says ErrorCode.success)
    [72, 73, 10] { ec := ErrorCode.success, accepted := 3 } (engine_says ErrorCode.success)
    rfl rfl).2.1 rfl rfl
  refine ⟨rfl, rfl, h1.1, h1.2.1, ?_, h2.1, h2.2.1, h2.2.2.1, h2.2.2.2⟩
  rw [h1.2.2.2.1]
  rfl

end Ripple.MultiSocketType
